import Mathlib

/-!
World clock face (`watch-faces/clock/world_clock_face.c`).

A shallow embedding of the world clock face of the watch firmware: the
character cycler, the settings store adapter, the display renderer and the
two-mode face controller, followed by the properties proved about them.

Conventions of the embedding.

* A C `char` / `uint8_t` is a `Nat` byte, with `% 256` written where the C
  arithmetic can wrap.  A `uint32_t` is a `Nat` with shifts written as
  divisions by a power of two.
* Characters are written as their ASCII code, with the C literal in a
  comment next to it.
* A C string handed to the host is the list of its bytes, terminator
  excluded.
* The host (display, file store, zone resolver, event loop) is not part of
  the face: what the face reads from it is a field of `Host` or `World`, and
  every call that acts on it is recorded, in order, as a `HostCall`.
-/

namespace WorldClock

/-! Display capability -/

/-- Modelled from the spec: the LCD type enumeration of `watch.h`, which is
not part of the sources at hand.  The face only ever tests
`watch_get_lcd_type() == WATCH_LCD_TYPE_CUSTOM`; the custom LCD is the
capability-rich display, the classic one is the restricted display. -/
inductive watch_lcd_type_t
  | WATCH_LCD_TYPE_CLASSIC
  | WATCH_LCD_TYPE_CUSTOM
  deriving DecidableEq, Repr

open watch_lcd_type_t

/-! Character cycler -/

/-- The function `advance_character_at_position` (lines 49-121).  The C
function updates `*character` in place; here the new byte is returned.
`lcd` is the value `watch_get_lcd_type()` returns. -/
def advance_character_at_position (lcd : watch_lcd_type_t) (character : Nat) (position : Nat) : Nat :=
  let is_custom_lcd : Bool := decide (lcd = WATCH_LCD_TYPE_CUSTOM)
  if is_custom_lcd ∨ position = 0 then
    -- On custom LCD and classic's position 0 we support all characters.
    if character = 0x20 then 0x41                -- case ' ': 'A'
    else if character = 0x7A then 0x30           -- case 'z': '0'
    else if character = 0x39 then 0x7B           -- case '9': left brace
    else if character = 0x7D then 0x2A           -- case right brace: '*'
    else if character = 0x2E then 0x2F           -- case '.': '/'
    else if character = 0x2F ∨ character = 0x7F then 0x20   -- case '/', case 0x7F: ' '
    else (character + 1) % 256                   -- default: *character += 1
  else
    if character = 0x20 then 0x41                -- case ' ': 'A'
    else if character = 0x46 ∨ character = 0x4A ∨ character = 0x4C
        ∨ character = 0x52 ∨ character = 0x31 then
      (character + 2) % 256                      -- case 'F','J','L','R','1': += 2
    else if character = 0x48 then 0x6C           -- case 'H': 'l'
    else if character = 0x6C then 0x4A           -- case 'l': 'J'
    else if character = 0x4F then 0x52           -- case 'O': 'R'
    else if character = 0x55 then 0x58           -- case 'U': 'X'
    else if character = 0x58 then 0x30           -- case 'X': '0'
    else if character = 0x33 then 0x37           -- case '3': '7'
    else if character = 0x38 then 0x7B           -- case '8': left brace
    else if character = 0x7B ∨ character = 0x7F then 0x20   -- case left brace, case 0x7F: ' '
    else (character + 1) % 256                   -- default: *character += 1

/-- The bytes obtained by pressing the button `n` times: `c`, `advance c`,
`advance (advance c)`, ... (`n` values, the start included). -/
def advance_orbit (lcd : watch_lcd_type_t) (position : Nat) : Nat → Nat → List Nat
  | 0, _ => []
  | n + 1, c => c :: advance_orbit lcd position n (advance_character_at_position lcd c position)

/-- The intended alphabet of the rich table, in rotation order: space, `A`..`Z`,
the six codes between `Z` and `a`, `a`..`z`, `0`..`9`, the three codes from the
left brace to the right brace, and `*` `+` `,` `-` `.` `/`. -/
def rich_alphabet : List Nat :=
  [0x20] ++ (List.range 26).map (0x41 + ·) ++ [0x5B, 0x5C, 0x5D, 0x5E, 0x5F, 0x60]
    ++ (List.range 26).map (0x61 + ·) ++ (List.range 10).map (0x30 + ·)
    ++ [0x7B, 0x7C, 0x7D] ++ [0x2A, 0x2B, 0x2C, 0x2D, 0x2E, 0x2F]

/-- The intended alphabet of the restricted table, in rotation order:
space, A, B, C, D, E, F, H, l, J, L, N, O, R, T, U, X, 0, 1, 3, 7, 8 and the
left brace. -/
def restricted_alphabet : List Nat :=
  [0x20, 0x41, 0x42, 0x43, 0x44, 0x45, 0x46, 0x48, 0x6C, 0x4A, 0x4C, 0x4E, 0x4F,
   0x52, 0x54, 0x55, 0x58, 0x30, 0x31, 0x33, 0x37, 0x38, 0x7B]

/-- The rich table is selected: custom LCD at any position, or position 0. -/
def rich_table_selected (lcd : watch_lcd_type_t) (position : Nat) : Prop :=
  lcd = WATCH_LCD_TYPE_CUSTOM ∨ position = 0

instance (lcd : watch_lcd_type_t) (position : Nat) : Decidable (rich_table_selected lcd position) := by
  unfold rich_table_selected; infer_instance

/-! Settings record and face state -/

/-- Modelled from the spec: the declaration of `world_clock_settings_t` in
`world_clock_face.h`, which is not part of the sources at hand.  It is a
union of the 32-bit `reg` with the fields `char_0`, `char_1`, `char_2` and
`timezone_index` of `bit`: the face takes the address of each character, so
each is a whole byte, and the four fields share the 32 bits of `reg`. -/
structure world_clock_settings_t where
  char_0 : Nat
  char_1 : Nat
  char_2 : Nat
  timezone_index : Nat
  deriving DecidableEq, Repr

/-- The view `settings.reg` of the union: the four bytes, `char_0` lowest. -/
def world_clock_settings_t.reg (s : world_clock_settings_t) : Nat :=
  s.char_0 + 256 * s.char_1 + 65536 * s.char_2 + 16777216 * s.timezone_index

/-- The view `settings.bit` of a 32-bit pattern stored through `reg`. -/
def world_clock_settings_t.of_reg (r : Nat) : world_clock_settings_t :=
  { char_0 := r % 256, char_1 := r / 256 % 256, char_2 := r / 65536 % 256,
    timezone_index := r / 16777216 % 256 }

/-- Every field of the record is a byte. -/
def world_clock_settings_t.wf (s : world_clock_settings_t) : Prop :=
  s.char_0 < 256 ∧ s.char_1 < 256 ∧ s.char_2 < 256 ∧ s.timezone_index < 256

instance (s : world_clock_settings_t) : Decidable s.wf := by
  unfold world_clock_settings_t.wf; infer_instance

/-- Modelled from the spec: the declaration of `world_clock_state_t` in
`world_clock_face.h`, which is not part of the sources at hand.  The fields
are the ones the face uses: `current_screen` and `clock_index` are bytes,
`previous_date_time` is a `uint32_t`, `current_offset` a signed offset. -/
structure world_clock_state_t where
  settings : world_clock_settings_t
  current_screen : Nat
  clock_index : Nat
  previous_date_time : Nat
  current_offset : Int
  deriving DecidableEq, Repr

/-! Packed date-time -/

/-- Modelled from the spec: the bit fields of `watch_date_time_t`, declared in
a header which is not part of the sources at hand.  The face shifts `reg` by 6
to drop the seconds and by 12 to drop seconds and minutes, so `second` and
`minute` are the two lowest 6-bit fields; above them come `hour` (5 bits),
`day` (5 bits), `month` (4 bits) and `year` (6 bits). -/
def date_time_second (reg : Nat) : Nat := reg % 64

/-- Modelled from the spec: field `unit.minute` of `watch_date_time_t`, bits 6..11. -/
def date_time_minute (reg : Nat) : Nat := reg / 64 % 64

/-- Modelled from the spec: field `unit.hour` of `watch_date_time_t`, bits 12..16. -/
def date_time_hour (reg : Nat) : Nat := reg / 4096 % 32

/-- Modelled from the spec: field `unit.day` of `watch_date_time_t`, bits 17..21. -/
def date_time_day (reg : Nat) : Nat := reg / 131072 % 32

/-- Modelled from the spec: field `unit.month` of `watch_date_time_t`, bits 22..25. -/
def date_time_month (reg : Nat) : Nat := reg / 4194304 % 16

/-- Modelled from the spec: field `unit.year` of `watch_date_time_t`, bits 26..31. -/
def date_time_year (reg : Nat) : Nat := reg / 67108864 % 64

/-- A packed date-time whose fields are in calendar range. -/
def date_time_in_calendar_range (reg : Nat) : Prop :=
  date_time_second reg ≤ 59 ∧ date_time_minute reg ≤ 59 ∧ date_time_hour reg ≤ 23
    ∧ date_time_day reg ≤ 31 ∧ date_time_month reg ≤ 12

instance (reg : Nat) : Decidable (date_time_in_calendar_range reg) := by
  unfold date_time_in_calendar_range; infer_instance

/-! Events and host calls -/

/-- Modelled from the spec: the event kinds of `movement.h`, which is not part
of the sources at hand.  The eight kinds the face names are listed; every
other kind the host can deliver is `EVENT_OTHER`. -/
inductive movement_event_type_t
  | EVENT_ACTIVATE
  | EVENT_TICK
  | EVENT_LOW_ENERGY_UPDATE
  | EVENT_TIMEOUT
  | EVENT_LIGHT_BUTTON_DOWN
  | EVENT_MODE_BUTTON_UP
  | EVENT_ALARM_BUTTON_DOWN
  | EVENT_ALARM_LONG_PRESS
  | EVENT_OTHER (kind : Nat)
  deriving DecidableEq, Repr

/-- Modelled from the spec: `movement_event_t` of `movement.h`: an event kind
and a sub-second counter. -/
structure movement_event_t where
  event_type : movement_event_type_t
  subsecond : Nat
  deriving DecidableEq, Repr

/-- Modelled from the spec: the display locations of `watch_common_display.h`
the face writes text to. -/
inductive watch_position_t
  | WATCH_POSITION_FULL
  | WATCH_POSITION_TOP_RIGHT
  | WATCH_POSITION_HOURS
  | WATCH_POSITION_MINUTES
  | WATCH_POSITION_SECONDS
  deriving DecidableEq, Repr

/-- Modelled from the spec: the two indicators the face touches. -/
inductive watch_indicator_t
  | WATCH_INDICATOR_PM
  | WATCH_INDICATOR_COLON
  deriving DecidableEq, Repr

/-- A call from the face into the host that acts on the display, on the
event loop or on the file store, with its arguments.  Pure queries of the
clock, of the zone resolver and of the display type are not recorded. -/
inductive HostCall
  | watch_set_colon
  | watch_clear_colon
  | watch_clear_indicator (indicator : watch_indicator_t)
  | watch_display_character (character : Nat) (position : Nat)
  | watch_display_character_lp_seconds (character : Nat) (position : Nat)
  | watch_display_text (location : watch_position_t) (text : List Nat)
  | watch_start_sleep_animation (duration : Nat)
  | watch_stop_sleep_animation
  | watch_stop_blink
  | watch_start_indicator_blink_if_possible (indicator : watch_indicator_t) (duration : Nat)
  | movement_request_tick_frequency (freq : Nat)
  | movement_move_to_next_face
  | movement_move_to_face (watch_face_index : Nat)
  | movement_default_loop_handler (event : movement_event_t)
  | filesystem_file_exists (filename : List Nat)
  | filesystem_read_file (filename : List Nat) (length : Nat)
  | filesystem_write_file (filename : List Nat) (reg : Nat) (length : Nat)
  deriving DecidableEq, Repr

/-- The call writes to the display: a character, a text or an indicator. -/
def HostCall.is_display_call : HostCall → Bool
  | .watch_set_colon => true
  | .watch_clear_colon => true
  | .watch_clear_indicator _ => true
  | .watch_display_character _ _ => true
  | .watch_display_character_lp_seconds _ _ => true
  | .watch_display_text _ _ => true
  | .watch_start_indicator_blink_if_possible _ _ => true
  | .watch_stop_blink => true
  | _ => false

/-- The call is a `filesystem_read_file`. -/
def HostCall.is_file_read : HostCall → Bool
  | .filesystem_read_file _ _ => true
  | _ => false

/-- The call is a `filesystem_write_file`. -/
def HostCall.is_file_write : HostCall → Bool
  | .filesystem_write_file _ _ _ => true
  | _ => false

/-! The host -/

/-- What the face reads from the host during one event: the display type, the
constants of `zones.h` (not part of the sources at hand, so taken as
parameters), the zone resolver, the clock and the default event handler. -/
structure Host where
  /-- Result of `watch_get_lcd_type()`. -/
  lcd_type : watch_lcd_type_t
  /-- The constant `NUM_ZONE_NAMES`. -/
  NUM_ZONE_NAMES : Nat
  /-- The constant `UTZ_UTC`. -/
  UTZ_UTC : Nat
  /-- Result of `movement_get_current_timezone_offset_for_zone(index)`. -/
  movement_get_current_timezone_offset_for_zone : Nat → Int
  /-- The `reg` of `movement_get_date_time_in_zone(index)`. -/
  movement_get_date_time_in_zone : Nat → Nat
  /-- The string `watch_utility_time_zone_name_at_index(index)` points to. -/
  watch_utility_time_zone_name_at_index : Nat → List Nat
  /-- Result of `movement_default_loop_handler(event)`. -/
  movement_default_loop_handler : movement_event_t → Bool

/-- One file of the store, as a read of the record width sees it. -/
inductive FileSlot
  | absent
  | unreadable
  | blob (reg : Nat)
  deriving DecidableEq, Repr

/-- The part of the host the face changes, and the memory it does not
initialise. -/
structure World where
  /-- The file store, by file name. -/
  files : List Nat → FileSlot
  /-- The store refuses writes (no free space, I/O error). -/
  write_fails : Bool
  /-- Result of `watch_sleep_animation_is_running()`. -/
  sleep_animation_is_running : Bool
  /-- The static counter `world_clock_instances`. -/
  world_clock_instances : Nat
  /-- The bytes found in the local array `buf` of the settings handler before
  it is written to. -/
  stack : Nat → Nat

/-- Modelled from the spec: `filesystem_file_exists` of the file store, which
is not part of the sources at hand. -/
def filesystem_file_exists (w : World) (filename : List Nat) : Bool :=
  match w.files filename with
  | .absent => false
  | _ => true

/-- Modelled from the spec: `filesystem_read_file` of the file store, which is
not part of the sources at hand: "reads the currently-stored blob (defaulting
to an all-ones sentinel record if none exists or read fails)", that is, a read
which fails leaves the caller's buffer as it was.  The result is the 32-bit
content of the buffer after the call. -/
def filesystem_read_file (w : World) (filename : List Nat) (buffer : Nat) : Nat :=
  match w.files filename with
  | .blob reg => reg
  | _ => buffer

/-- Modelled from the spec: `filesystem_write_file` of the file store, which is
not part of the sources at hand: a write that succeeds replaces the file's
content by the blob, a write that fails leaves the store as it was. -/
def filesystem_write_file (w : World) (filename : List Nat) (reg : Nat) : World :=
  if w.write_fails then w
  else { w with files := Function.update w.files filename (FileSlot.blob reg) }

/-! Formatting -/

/-- The decimal digits of `n`, most significant first (at most `fuel` of them;
ten are enough for a 32-bit value). -/
def decimal_digits : Nat → Nat → List Nat
  | 0, _ => []
  | fuel + 1, n =>
    if n < 10 then [0x30 + n] else decimal_digits fuel (n / 10) ++ [0x30 + n % 10]

/-- The conversion `%<width>d` of `sprintf` (`pad` is 0x20) and `%0<width>d`
(`pad` is 0x30) for a non-negative argument. -/
def sprintf_d (pad width n : Nat) : List Nat :=
  let digits := decimal_digits 10 n
  List.replicate (width - digits.length) pad ++ digits

/-- The file name `sprintf(filename, "wclk_%03d.u32", clock_index)` builds:
`wclk_`, the index in at least three digits, `.u32`.  The index is a byte, so
the name has 12 characters and fits `filename[13]`. -/
def settings_filename (clock_index : Nat) : List Nat :=
  [0x77, 0x63, 0x6C, 0x6B, 0x5F] ++ sprintf_d 0x30 3 clock_index ++ [0x2E, 0x75, 0x33, 0x32]

/-- The C string starting at the beginning of a buffer: its bytes up to the
first NUL, or nothing when the buffer holds no NUL (the read runs off the
array). -/
def c_string (buf : List Nat) : Option (List Nat) :=
  if 0 ∈ buf then some (buf.takeWhile (· ≠ 0)) else none

/-- The array after `memcpy(buf + offset, src, src.length)`. -/
def memcpy_at (buf : List Nat) (offset : Nat) (src : List Nat) : List Nat :=
  buf.take offset ++ src ++ buf.drop (offset + src.length)

/-! Settings store adapter -/

/-- What a call leaves behind: the returned flag (where the C function returns
one), the face state, the host and the host calls made, in order. -/
structure Outcome where
  handled : Bool
  state : world_clock_state_t
  world : World
  calls : List HostCall

/-- The function `persist_world_clock_settings` (lines 36-47): the new store
and the calls made.  The state is only read. -/
def persist_world_clock_settings (state : world_clock_state_t) (w : World) :
    World × List HostCall :=
  let maybe_settings_reg := 0xFFFFFFFF
  let filename := settings_filename state.clock_index
  let maybe_settings_reg := filesystem_read_file w filename maybe_settings_reg
  if state.settings.reg ≠ maybe_settings_reg then
    (filesystem_write_file w filename state.settings.reg,
      [HostCall.filesystem_read_file filename 4,
       HostCall.filesystem_write_file filename state.settings.reg 4])
  else
    (w, [HostCall.filesystem_read_file filename 4])

/-- The function `_update_timezone_offset` (lines 123-125). -/
def _update_timezone_offset (host : Host) (state : world_clock_state_t) : world_clock_state_t :=
  { state with
    current_offset :=
      host.movement_get_current_timezone_offset_for_zone state.settings.timezone_index }

/-- The function `world_clock_face_setup` (lines 127-148).  `context` is
`*context_ptr`, `none` for `NULL`; the state is zeroed by `memset`, the
instance counter is read and incremented, and the settings are read from the
file when it exists. -/
def world_clock_face_setup (host : Host) (w : World) (watch_face_index : Nat)
    (context : Option world_clock_state_t) :
    Option world_clock_state_t × World × List HostCall :=
  let _ := watch_face_index
  match context with
  | some state => (some state, w, [])
  | none =>
    let state : world_clock_state_t :=
      { settings := world_clock_settings_t.of_reg 0, current_screen := 0, clock_index := 0,
        previous_date_time := 0, current_offset := 0 }
    let state := { state with clock_index := w.world_clock_instances % 256 }
    let w := { w with world_clock_instances := w.world_clock_instances + 1 }
    let filename := settings_filename state.clock_index
    if filesystem_file_exists w filename then
      let reg := filesystem_read_file w filename state.settings.reg
      (some { state with settings := world_clock_settings_t.of_reg reg }, w,
        [HostCall.filesystem_file_exists filename, HostCall.filesystem_read_file filename 4])
    else
      (some { state with
              settings := { char_0 := 0x20, char_1 := 0x20, char_2 := 0x20,
                            timezone_index := host.UTZ_UTC % 256 } }, w,
        [HostCall.filesystem_file_exists filename])

/-- The function `world_clock_face_activate` (lines 150-160). -/
def world_clock_face_activate (host : Host) (state : world_clock_state_t) (w : World) :
    world_clock_state_t × World × List HostCall :=
  let state := { state with current_screen := 0 }
  let state := _update_timezone_offset host state
  if w.sleep_animation_is_running then
    (state, { w with sleep_animation_is_running := false },
      [HostCall.watch_stop_sleep_animation, HostCall.watch_stop_blink])
  else
    (state, w, [])

/-! Display renderer -/

open movement_event_type_t watch_position_t watch_indicator_t

/-- The body shared by the cases `EVENT_ACTIVATE` (which falls through),
`EVENT_TICK` and `EVENT_LOW_ENERGY_UPDATE` of `world_clock_face_do_display_mode`
(lines 174-211).  `calls` are the calls already made by the case itself. -/
def display_mode_render (host : Host) (event : movement_event_t) (state : world_clock_state_t)
    (w : World) (calls : List HostCall) : Outcome :=
  let date_time := host.movement_get_date_time_in_zone state.settings.timezone_index
  let previous_date_time := state.previous_date_time
  let state := { state with previous_date_time := date_time }
  if date_time / 64 = previous_date_time / 64 ∧ event.event_type ≠ EVENT_LOW_ENERGY_UPDATE then
    -- everything before seconds is the same
    { handled := true, state := state, world := w,
      calls := calls ++
        [HostCall.watch_display_character_lp_seconds (0x30 + date_time_second date_time / 10) 8,
         HostCall.watch_display_character_lp_seconds (0x30 + date_time_second date_time % 10) 9] }
  else if date_time / 4096 = previous_date_time / 4096
      ∧ event.event_type ≠ EVENT_LOW_ENERGY_UPDATE then
    -- everything before minutes is the same
    let buf := sprintf_d 0x30 2 (date_time_minute date_time)
      ++ sprintf_d 0x30 2 (date_time_second date_time)
    let state :=
      if date_time_minute date_time % 15 = 0 then _update_timezone_offset host state else state
    { handled := true, state := state, world := w,
      calls := calls ++
        [HostCall.watch_display_text WATCH_POSITION_MINUTES buf,
         HostCall.watch_display_text WATCH_POSITION_SECONDS (buf.drop 2)] }
  else
    -- other stuff changed; do it all
    let label :=
      [HostCall.watch_display_character state.settings.char_0 0,
       HostCall.watch_display_character state.settings.char_1 1]
      ++ (if host.lcd_type = WATCH_LCD_TYPE_CUSTOM then
            [HostCall.watch_display_character state.settings.char_2 10]
          else [])
    let buf := sprintf_d 0x20 2 (date_time_day date_time)
      ++ sprintf_d 0x20 2 (date_time_hour date_time)
      ++ sprintf_d 0x30 2 (date_time_minute date_time)
      ++ sprintf_d 0x30 2 (date_time_second date_time)
    let time :=
      [HostCall.watch_display_text WATCH_POSITION_TOP_RIGHT buf,
       HostCall.watch_display_text WATCH_POSITION_HOURS (buf.drop 2),
       HostCall.watch_display_text WATCH_POSITION_MINUTES (buf.drop 4)]
    if event.event_type = EVENT_LOW_ENERGY_UPDATE then
      if ¬ w.sleep_animation_is_running then
        { handled := true, state := state,
          world := { w with sleep_animation_is_running := true },
          calls := calls ++ label ++ time ++
            [HostCall.watch_display_text WATCH_POSITION_SECONDS [0x20, 0x20],
             HostCall.watch_start_sleep_animation 500,
             HostCall.watch_start_indicator_blink_if_possible WATCH_INDICATOR_COLON 500] }
      else
        { handled := true, state := state, world := w, calls := calls ++ label ++ time }
    else
      { handled := true, state := state, world := w,
        calls := calls ++ label ++ time ++
          [HostCall.watch_display_text WATCH_POSITION_SECONDS (buf.drop 6)] }

/-- The function `world_clock_face_do_display_mode` (lines 162-221). -/
def world_clock_face_do_display_mode (host : Host) (event : movement_event_t)
    (state : world_clock_state_t) (w : World) : Outcome :=
  match event.event_type with
  | EVENT_ACTIVATE =>
    display_mode_render host event { state with previous_date_time := 0xFFFFFFFF } w
      [HostCall.watch_set_colon]
  | EVENT_TICK => display_mode_render host event state w []
  | EVENT_LOW_ENERGY_UPDATE => display_mode_render host event state w []
  | EVENT_ALARM_LONG_PRESS =>
    { handled := true, state := { state with current_screen := 1 }, world := w,
      calls := [HostCall.movement_request_tick_frequency 4] }
  | _ =>
    { handled := host.movement_default_loop_handler event, state := state, world := w,
      calls := [HostCall.movement_default_loop_handler event] }

/-! Face controller -/

/-- The redraw at the end of `_world_clock_face_do_settings_mode` (lines
271-302).  `buf` is a local array of 13 bytes: `sprintf` writes the text and
its terminator over what the stack held; the result is `none` when the text
does not fit the array or when the string handed to the display has no
terminator inside it.  `calls` are the calls already made by the switch. -/
def settings_mode_redraw (host : Host) (event : movement_event_t) (state : world_clock_state_t)
    (w : World) (calls : List HostCall) : Option Outcome :=
  let name :=
    (host.watch_utility_time_zone_name_at_index state.settings.timezone_index).takeWhile (· ≠ 0)
  let text := [state.settings.char_0, state.settings.char_1, 0x20, 0x20] ++ name
    ++ [state.settings.char_2]
  if 13 < text.length + 1 then none
  else
    let buf := text ++ [0] ++ ((List.range 13).map w.stack).drop (text.length + 1)
    -- blink up the parameter we are setting
    let buf :=
      if event.subsecond % 2 ≠ 0 then
        if state.current_screen = 1 ∨ state.current_screen = 2 then
          buf.set (state.current_screen - 1) 0x5F
        else if state.current_screen = 3 then
          if host.lcd_type = WATCH_LCD_TYPE_CUSTOM then buf.set 10 0x5F
          else memcpy_at buf 4 [0x20, 0x20, 0x20, 0x20, 0x20, 0x20]
        else if state.current_screen = 4 then
          memcpy_at buf 4 [0x20, 0x20, 0x20, 0x20, 0x20, 0x20]
        else buf
      else buf
    match c_string buf with
    | none => none
    | some shown =>
      some { handled := true, state := state, world := w,
             calls := calls ++
               [HostCall.watch_clear_colon,
                HostCall.watch_clear_indicator WATCH_INDICATOR_PM,
                HostCall.watch_display_text WATCH_POSITION_FULL shown] }

/-- The inner switch of the case `EVENT_ALARM_BUTTON_DOWN` (lines 244-261). -/
def settings_mode_alarm_button (host : Host) (state : world_clock_state_t) :
    world_clock_state_t :=
  let cycle_timezone (state : world_clock_state_t) : world_clock_state_t :=
    let index := (state.settings.timezone_index + 1) % 256
    let index := if index ≥ host.NUM_ZONE_NAMES then 0 else index
    { state with settings := { state.settings with timezone_index := index } }
  if state.current_screen = 1 then
    { state with settings := { state.settings with
        char_0 := advance_character_at_position host.lcd_type state.settings.char_0 0 } }
  else if state.current_screen = 2 then
    { state with settings := { state.settings with
        char_1 := advance_character_at_position host.lcd_type state.settings.char_1 1 } }
  else if state.current_screen = 3 then
    if host.lcd_type = WATCH_LCD_TYPE_CUSTOM then
      { state with settings := { state.settings with
          char_2 := advance_character_at_position host.lcd_type state.settings.char_2 2 } }
    else cycle_timezone state
  else if state.current_screen = 4 then cycle_timezone state
  else state

/-- The function `_world_clock_face_do_settings_mode` (lines 223-303).
The result is `none` when the redraw overruns its buffer. -/
def _world_clock_face_do_settings_mode (host : Host) (event : movement_event_t)
    (state : world_clock_state_t) (w : World) : Option Outcome :=
  match event.event_type with
  | EVENT_MODE_BUTTON_UP =>
    let p := persist_world_clock_settings state w
    some { handled := false, state := state, world := p.1,
           calls := p.2 ++ [HostCall.movement_move_to_next_face] }
  | EVENT_LIGHT_BUTTON_DOWN =>
    let state := { state with current_screen := (state.current_screen + 1) % 256 }
    let is_custom_lcd : Bool := decide (host.lcd_type = WATCH_LCD_TYPE_CUSTOM)
    if (is_custom_lcd ∧ state.current_screen > 4) ∨ (¬ is_custom_lcd ∧ state.current_screen > 3) then
      let state := _update_timezone_offset host state
      let state := { state with current_screen := 0 }
      let p := persist_world_clock_settings state w
      let event := { event with event_type := EVENT_ACTIVATE }
      let r := world_clock_face_do_display_mode host event state p.1
      some { r with calls := [HostCall.movement_request_tick_frequency 1] ++ p.2 ++ r.calls }
    else settings_mode_redraw host event state w []
  | EVENT_ALARM_BUTTON_DOWN =>
    settings_mode_redraw host event (settings_mode_alarm_button host state) w []
  | EVENT_TIMEOUT =>
    let p := persist_world_clock_settings state w
    settings_mode_redraw host event state p.1 (p.2 ++ [HostCall.movement_move_to_face 0])
  | _ => settings_mode_redraw host event state w []

/-- The function `world_clock_face_loop` (lines 305-313). -/
def world_clock_face_loop (host : Host) (event : movement_event_t)
    (state : world_clock_state_t) (w : World) : Option Outcome :=
  if state.current_screen = 0 then
    some (world_clock_face_do_display_mode host event state w)
  else
    _world_clock_face_do_settings_mode host event state w

/-- The 32-bit pattern a file stands for in the change detection: the stored
blob, and the all-ones pattern for an absent or unreadable file. -/
def stored_pattern (w : World) (filename : List Nat) : Nat :=
  match w.files filename with
  | .blob reg => reg
  | _ => 0xFFFFFFFF

/-- The number of `filesystem_write_file` calls in a list of calls. -/
def write_count (calls : List HostCall) : Nat :=
  (calls.filter HostCall.is_file_write).length

/-- The number of `filesystem_read_file` calls in a list of calls.  The face
reads a file once in every call of `persist_world_clock_settings` and, in the
event handlers, nowhere else. -/
def read_count (calls : List HostCall) : Nat :=
  (calls.filter HostCall.is_file_read).length

/-- The two decimal digits `%02d` prints for a value below 100. -/
def two_digits (x : Nat) : List Nat := [0x30 + x / 10, 0x30 + x % 10]

/-- The two characters `%2d` prints for a value below 100: a blank instead of
a leading zero. -/
def two_digits_blank (x : Nat) : List Nat :=
  [if x < 10 then 0x20 else 0x30 + x / 10, 0x30 + x % 10]

/-- Two packed date-times agree in every field above the seconds. -/
def agree_above_seconds (a b : Nat) : Prop :=
  date_time_minute a = date_time_minute b ∧ date_time_hour a = date_time_hour b
    ∧ date_time_day a = date_time_day b ∧ date_time_month a = date_time_month b
    ∧ date_time_year a = date_time_year b

/-- Two packed date-times agree in every field above the minutes. -/
def agree_above_minutes (a b : Nat) : Prop :=
  date_time_hour a = date_time_hour b
    ∧ date_time_day a = date_time_day b ∧ date_time_month a = date_time_month b
    ∧ date_time_year a = date_time_year b

instance (a b : Nat) : Decidable (agree_above_seconds a b) := by
  unfold agree_above_seconds; infer_instance

instance (a b : Nat) : Decidable (agree_above_minutes a b) := by
  unfold agree_above_minutes; infer_instance

/-- The seconds-only tier: the tens and the ones of the second at positions 8
and 9. -/
def seconds_only_writes (date_time : Nat) : List HostCall :=
  [HostCall.watch_display_character_lp_seconds (0x30 + date_time_second date_time / 10) 8,
   HostCall.watch_display_character_lp_seconds (0x30 + date_time_second date_time % 10) 9]

/-- The minutes tier: the minutes (the text handed over starts with the minute
digits and goes on with the seconds), then the seconds. -/
def minutes_and_seconds_writes (date_time : Nat) : List HostCall :=
  [HostCall.watch_display_text WATCH_POSITION_MINUTES
     (two_digits (date_time_minute date_time) ++ two_digits (date_time_second date_time)),
   HostCall.watch_display_text WATCH_POSITION_SECONDS (two_digits (date_time_second date_time))]

/-- The label and the day, hour and minute of the full redraw: label
character 0, label character 1, label character 2 on the custom LCD only,
then day, hour and minute (each text handed over starts at its own field of
the formatted string and runs to its end). -/
def label_day_hour_minute_writes (lcd : watch_lcd_type_t) (settings : world_clock_settings_t)
    (date_time : Nat) : List HostCall :=
  [HostCall.watch_display_character settings.char_0 0,
   HostCall.watch_display_character settings.char_1 1]
  ++ (if lcd = WATCH_LCD_TYPE_CUSTOM then [HostCall.watch_display_character settings.char_2 10]
      else [])
  ++ [HostCall.watch_display_text WATCH_POSITION_TOP_RIGHT
        (two_digits_blank (date_time_day date_time) ++ two_digits_blank (date_time_hour date_time)
          ++ two_digits (date_time_minute date_time) ++ two_digits (date_time_second date_time)),
      HostCall.watch_display_text WATCH_POSITION_HOURS
        (two_digits_blank (date_time_hour date_time)
          ++ two_digits (date_time_minute date_time) ++ two_digits (date_time_second date_time)),
      HostCall.watch_display_text WATCH_POSITION_MINUTES
        (two_digits (date_time_minute date_time) ++ two_digits (date_time_second date_time))]

/-- The full-redraw tier outside a low-energy update: label, day, hour, minute
and the seconds. -/
def full_redraw_writes (lcd : watch_lcd_type_t) (settings : world_clock_settings_t)
    (date_time : Nat) : List HostCall :=
  label_day_hour_minute_writes lcd settings date_time
  ++ [HostCall.watch_display_text WATCH_POSITION_SECONDS (two_digits (date_time_second date_time))]

/-- The face is in the last settings page of the display at hand: page 3 on
the classic LCD, page 4 on the custom LCD. -/
def in_last_settings_page (host : Host) (state : world_clock_state_t) : Prop :=
  (host.lcd_type = WATCH_LCD_TYPE_CLASSIC ∧ state.current_screen = 3)
    ∨ (host.lcd_type = WATCH_LCD_TYPE_CUSTOM ∧ state.current_screen = 4)

instance (host : Host) (state : world_clock_state_t) :
    Decidable (in_last_settings_page host state) := by
  unfold in_last_settings_page; infer_instance

/-- A packed date-time: 2024-03-05 10:15:30, the year counted from 2020. -/
def example_date_time : Nat :=
  30 + 64 * 15 + 4096 * 10 + 131072 * 5 + 4194304 * 3 + 67108864 * 4

/-- A host with the classic LCD, a table of 100 six-letter zone names and a
clock that stands at `example_date_time` in every zone. -/
def example_host : Host :=
  { lcd_type := WATCH_LCD_TYPE_CLASSIC
    NUM_ZONE_NAMES := 100
    UTZ_UTC := 0
    movement_get_current_timezone_offset_for_zone := fun index => 3600 * (index : Int)
    movement_get_date_time_in_zone := fun _ => example_date_time
    watch_utility_time_zone_name_at_index := fun _ => [0x55, 0x54, 0x43, 0x20, 0x20, 0x20]
    movement_default_loop_handler := fun _ => true }

/-- The same host with the custom LCD. -/
def example_host_custom : Host :=
  { example_host with lcd_type := WATCH_LCD_TYPE_CUSTOM }

/-- A host state with an empty file store that accepts writes. -/
def example_world : World :=
  { files := fun _ => FileSlot.absent
    write_fails := false
    sleep_animation_is_running := false
    world_clock_instances := 1
    stack := fun _ => 0xAA }

/-- A face state in settings page `page`: blank label, zone 99, last drawn at
`example_date_time`. -/
def example_state (page : Nat) : world_clock_state_t :=
  { settings := { char_0 := 0x20, char_1 := 0x20, char_2 := 0x20, timezone_index := 99 }
    current_screen := page
    clock_index := 0
    previous_date_time := example_date_time
    current_offset := 0 }

/-- Every zone name has six characters, the width the settings screen is laid
out for (two label characters, two blanks, the name, label character 2 at
index 10 and the terminator fill 12 of the 13 bytes of `buf`). -/
def Host.zone_names_six (host : Host) : Prop :=
  ∀ index,
    ((host.watch_utility_time_zone_name_at_index index).takeWhile (· ≠ 0)).length = 6

/-- A sequence of events handled one after the other by
`world_clock_face_loop`, each on the state and host the previous one left:
the final state and host, or `none` as soon as one event gives `none`. -/
def run_events (host : Host) :
    List movement_event_t → world_clock_state_t → World → Option (world_clock_state_t × World)
  | [], state, w => some (state, w)
  | event :: rest, state, w =>
    match world_clock_face_loop host event state w with
    | none => none
    | some out => run_events host rest out.state out.world

/-- The display-mode switch has a case for the event kind. -/
def display_mode_has_case (kind : movement_event_type_t) : Prop :=
  kind = EVENT_ACTIVATE ∨ kind = EVENT_TICK ∨ kind = EVENT_LOW_ENERGY_UPDATE
    ∨ kind = EVENT_ALARM_LONG_PRESS

/-- The settings-mode switch has a case other than `default` for the event
kind. -/
def settings_mode_has_case (kind : movement_event_type_t) : Prop :=
  kind = EVENT_MODE_BUTTON_UP ∨ kind = EVENT_LIGHT_BUTTON_DOWN
    ∨ kind = EVENT_ALARM_BUTTON_DOWN ∨ kind = EVENT_TIMEOUT

instance (kind : movement_event_type_t) : Decidable (display_mode_has_case kind) := by
  unfold display_mode_has_case; infer_instance

instance (kind : movement_event_type_t) : Decidable (settings_mode_has_case kind) := by
  unfold settings_mode_has_case; infer_instance

/-- Space is met within `n` applications of `advance_character_at_position`
starting from `c` (`c` itself counts as zero applications). -/
def reaches_space_within (lcd : watch_lcd_type_t) (position : Nat) : Nat → Nat → Bool
  | 0, c => c == 0x20
  | n + 1, c =>
    c == 0x20
      || reaches_space_within lcd position n (advance_character_at_position lcd c position)

/-- The last settings page of a display type: 4 on the custom LCD, 3 on the
classic one. -/
def last_settings_page (lcd : watch_lcd_type_t) : Nat :=
  match lcd with
  | WATCH_LCD_TYPE_CUSTOM => 4
  | WATCH_LCD_TYPE_CLASSIC => 3

/-- The face states that can be met on a display of type `lcd`: the state a
first-time setup creates, and from a state that can be met the state after
`world_clock_face_activate` and the state after any event that
`world_clock_face_loop` handles.  Clock, zone data and file store may differ
from one call to the next; only the display type is fixed. -/
inductive Reachable (lcd : watch_lcd_type_t) : world_clock_state_t → Prop
  | setup (host : Host) (w : World) (watch_face_index : Nat) (state : world_clock_state_t)
      (w2 : World) (calls : List HostCall) :
      host.lcd_type = lcd →
      world_clock_face_setup host w watch_face_index none = (some state, w2, calls) →
      Reachable lcd state
  | activate (host : Host) (state : world_clock_state_t) (w : World) :
      host.lcd_type = lcd → Reachable lcd state →
      Reachable lcd (world_clock_face_activate host state w).1
  | loop (host : Host) (event : movement_event_t) (state : world_clock_state_t) (w : World)
      (out : Outcome) :
      host.lcd_type = lcd → Reachable lcd state →
      world_clock_face_loop host event state w = some out →
      Reachable lcd out.state

/-- The example host with the clock standing at `reg` in every zone. -/
def example_host_at (reg : Nat) : Host :=
  { example_host with movement_get_date_time_in_zone := fun _ => reg }

/-- The packed date-time 2024-03-05 10:59:59. -/
def before_the_hour : Nat :=
  59 + 64 * 59 + 4096 * 10 + 131072 * 5 + 4194304 * 3 + 67108864 * 4

/-- The packed date-time 2024-03-05 11:00:00, one second after
`before_the_hour`. -/
def on_the_hour : Nat :=
  0 + 64 * 0 + 4096 * 11 + 131072 * 5 + 4194304 * 3 + 67108864 * 4

/-- The example host state with the sleep animation already running. -/
def example_world_sleeping : World :=
  { example_world with sleep_animation_is_running := true }

/-- The call addresses the seconds position of the display: a text at
`WATCH_POSITION_SECONDS`, or a single character at position 8 or 9. -/
def HostCall.targets_seconds : HostCall → Bool
  | .watch_display_text WATCH_POSITION_SECONDS _ => true
  | .watch_display_character_lp_seconds _ _ => true
  | .watch_display_character _ position => position == 8 || position == 9
  | _ => false

/-- The calls of a low-energy update that finds the sleep animation not
running: the seconds position written as two blanks, the sleep animation and
the colon blink started at 500 ms. -/
def enter_sleep_calls : List HostCall :=
  [HostCall.watch_display_text WATCH_POSITION_SECONDS [0x20, 0x20],
   HostCall.watch_start_sleep_animation 500,
   HostCall.watch_start_indicator_blink_if_possible WATCH_INDICATOR_COLON 500]

/-- The text of the settings screen: label character 0, label character 1, two
blanks, the zone name and label character 2. -/
def settings_text (settings : world_clock_settings_t) (name : List Nat) : List Nat :=
  [settings.char_0, settings.char_1, 0x20, 0x20] ++ name ++ [settings.char_2]

/-- The text of the settings screen on an odd sub-second, for a six-character
zone name: the field of the page replaced, `_` (0x5F) for a label character,
six blanks for the zone name. -/
def settings_text_blinked (lcd : watch_lcd_type_t) (page : Nat)
    (settings : world_clock_settings_t) (name : List Nat) : List Nat :=
  if page = 1 then (settings_text settings name).set 0 0x5F
  else if page = 2 then (settings_text settings name).set 1 0x5F
  else if page = 3 ∧ lcd = WATCH_LCD_TYPE_CUSTOM then (settings_text settings name).set 10 0x5F
  else if page = 3 ∨ page = 4 then
    settings_text settings [0x20, 0x20, 0x20, 0x20, 0x20, 0x20]
  else settings_text settings name

/-- A face state in settings page `page` whose label character 0 is the NUL
byte, as a stored blob can make it. -/
def example_state_nul (page : Nat) : world_clock_state_t :=
  { settings := { char_0 := 0, char_1 := 0x20, char_2 := 0x20, timezone_index := 99 }
    current_screen := page
    clock_index := 0
    previous_date_time := example_date_time
    current_offset := 0 }

/-! Lemmas on the character cycler -/

/-- Inside the rich branch the position no longer matters. -/
theorem advance_rich_eq (lcd : watch_lcd_type_t) (position c : Nat)
    (h : rich_table_selected lcd position) :
    advance_character_at_position lcd c position
      = advance_character_at_position WATCH_LCD_TYPE_CUSTOM c 0 := by
  unfold rich_table_selected at h
  have h1 : (decide (lcd = WATCH_LCD_TYPE_CUSTOM) = true ∨ position = 0) := by
    rcases h with h | h
    · left; simp [h]
    · right; exact h
  simp only [advance_character_at_position]
  rw [if_pos h1]
  simp

/-- Inside the restricted branch the position no longer matters. -/
theorem advance_restricted_eq (lcd : watch_lcd_type_t) (position c : Nat)
    (h : ¬ rich_table_selected lcd position) :
    advance_character_at_position lcd c position
      = advance_character_at_position WATCH_LCD_TYPE_CLASSIC c 1 := by
  unfold rich_table_selected at h
  have h1 : ¬ (decide (lcd = WATCH_LCD_TYPE_CUSTOM) = true ∨ position = 0) := by
    simpa using h
  simp only [advance_character_at_position]
  rw [if_neg h1]
  simp

theorem advance_orbit_rich_eq (lcd : watch_lcd_type_t) (position : Nat)
    (h : rich_table_selected lcd position) (n c : Nat) :
    advance_orbit lcd position n c = advance_orbit WATCH_LCD_TYPE_CUSTOM 0 n c := by
  induction n generalizing c with
  | zero => rfl
  | succ n ih => simp only [advance_orbit, ih, advance_rich_eq lcd position c h]

theorem advance_orbit_restricted_eq (lcd : watch_lcd_type_t) (position : Nat)
    (h : ¬ rich_table_selected lcd position) (n c : Nat) :
    advance_orbit lcd position n c = advance_orbit WATCH_LCD_TYPE_CLASSIC 1 n c := by
  induction n generalizing c with
  | zero => rfl
  | succ n ih => simp only [advance_orbit, ih, advance_restricted_eq lcd position c h]

theorem advance_iterate_rich_eq (lcd : watch_lcd_type_t) (position : Nat)
    (h : rich_table_selected lcd position) (n c : Nat) :
    (fun c => advance_character_at_position lcd c position)^[n] c
      = (fun c => advance_character_at_position WATCH_LCD_TYPE_CUSTOM c 0)^[n] c := by
  induction n generalizing c with
  | zero => rfl
  | succ n ih => simp only [Function.iterate_succ, Function.comp, ih, advance_rich_eq lcd position c h]

theorem advance_iterate_restricted_eq (lcd : watch_lcd_type_t) (position : Nat)
    (h : ¬ rich_table_selected lcd position) (n c : Nat) :
    (fun c => advance_character_at_position lcd c position)^[n] c
      = (fun c => advance_character_at_position WATCH_LCD_TYPE_CLASSIC c 1)^[n] c := by
  induction n generalizing c with
  | zero => rfl
  | succ n ih =>
    simp only [Function.iterate_succ, Function.comp, ih, advance_restricted_eq lcd position c h]

/-! Properties of the character cycler -/

set_option maxRecDepth 100000 in
theorem rich_cycle_canonical :
    advance_orbit WATCH_LCD_TYPE_CUSTOM 0 78 0x20 = rich_alphabet
      ∧ (fun c => advance_character_at_position WATCH_LCD_TYPE_CUSTOM c 0)^[78] 0x20 = 0x20 := by
  decide

set_option maxRecDepth 100000 in
theorem rich_cycle_no_early_return :
    ∀ k, k < 78 → 0 < k →
      (fun c => advance_character_at_position WATCH_LCD_TYPE_CUSTOM c 0)^[k] 0x20 ≠ 0x20 := by
  decide

set_option maxRecDepth 100000 in
theorem restricted_cycle_canonical :
    advance_orbit WATCH_LCD_TYPE_CLASSIC 1 23 0x20 = restricted_alphabet
      ∧ (fun c => advance_character_at_position WATCH_LCD_TYPE_CLASSIC c 1)^[23] 0x20 = 0x20 := by
  decide

set_option maxRecDepth 100000 in
theorem restricted_cycle_no_early_return :
    ∀ k, k < 23 → 0 < k →
      (fun c => advance_character_at_position WATCH_LCD_TYPE_CLASSIC c 1)^[k] 0x20 ≠ 0x20 := by
  decide

set_option maxRecDepth 100000 in
theorem advance_rich_byte_ne :
    ∀ c, c < 256 →
      advance_character_at_position WATCH_LCD_TYPE_CUSTOM c 0 < 256
        ∧ advance_character_at_position WATCH_LCD_TYPE_CUSTOM c 0 ≠ c := by
  decide

set_option maxRecDepth 100000 in
theorem advance_restricted_byte_ne :
    ∀ c, c < 256 →
      advance_character_at_position WATCH_LCD_TYPE_CLASSIC c 1 < 256
        ∧ advance_character_at_position WATCH_LCD_TYPE_CLASSIC c 1 ≠ c := by
  decide

/-- C1, rich table cycle closure: with the rich table selected (custom LCD at
any position, or position 0 on any display), the 78 values visited from space
are, in order, the rich alphabet (space, A..Z, the six codes up to the
backquote, a..z, 0..9, the three brace codes, and the six codes from `*` to
`/`), they are pairwise distinct, the 78th application of
`advance_character_at_position` gives space again, and no smaller positive
number of applications does. -/
theorem C1_rich_cycle_closure (lcd : watch_lcd_type_t) (position : Nat)
    (h : rich_table_selected lcd position) :
    advance_orbit lcd position 78 0x20 = rich_alphabet
      ∧ rich_alphabet.length = 78
      ∧ rich_alphabet.Nodup
      ∧ (fun c => advance_character_at_position lcd c position)^[78] 0x20 = 0x20
      ∧ ∀ k, 0 < k → k < 78 →
          (fun c => advance_character_at_position lcd c position)^[k] 0x20 ≠ 0x20 := by
  refine ⟨?_, by decide, by decide, ?_, ?_⟩
  · rw [advance_orbit_rich_eq lcd position h]; exact rich_cycle_canonical.1
  · rw [advance_iterate_rich_eq lcd position h]; exact rich_cycle_canonical.2
  · intro k hk0 hk
    rw [advance_iterate_rich_eq lcd position h]
    exact rich_cycle_no_early_return k hk hk0

/-- Witness of C1 on the classic LCD at position 0. -/
theorem C1_rich_cycle_closure_witness :
    rich_table_selected WATCH_LCD_TYPE_CLASSIC 0
      ∧ advance_orbit WATCH_LCD_TYPE_CLASSIC 0 78 0x20 = rich_alphabet
      ∧ (fun c => advance_character_at_position WATCH_LCD_TYPE_CLASSIC c 0)^[78] 0x20 = 0x20 :=
  ⟨by decide, (C1_rich_cycle_closure WATCH_LCD_TYPE_CLASSIC 0 (by decide)).1,
    (C1_rich_cycle_closure WATCH_LCD_TYPE_CLASSIC 0 (by decide)).2.2.2.1⟩

/-- C2, restricted table cycle closure: with the restricted table selected
(classic LCD and a position other than 0), the 23 values visited from space
are, in order, space, A, B, C, D, E, F, H, l, J, L, N, O, R, T, U, X, 0, 1, 3,
7, 8 and the left brace, they are pairwise distinct, the 23rd application of
`advance_character_at_position` gives space again, and no smaller positive
number of applications does. -/
theorem C2_restricted_cycle_closure (lcd : watch_lcd_type_t) (position : Nat)
    (h : ¬ rich_table_selected lcd position) :
    advance_orbit lcd position 23 0x20 = restricted_alphabet
      ∧ restricted_alphabet.length = 23
      ∧ restricted_alphabet.Nodup
      ∧ (fun c => advance_character_at_position lcd c position)^[23] 0x20 = 0x20
      ∧ ∀ k, 0 < k → k < 23 →
          (fun c => advance_character_at_position lcd c position)^[k] 0x20 ≠ 0x20 := by
  refine ⟨?_, by decide, by decide, ?_, ?_⟩
  · rw [advance_orbit_restricted_eq lcd position h]; exact restricted_cycle_canonical.1
  · rw [advance_iterate_restricted_eq lcd position h]; exact restricted_cycle_canonical.2
  · intro k hk0 hk
    rw [advance_iterate_restricted_eq lcd position h]
    exact restricted_cycle_no_early_return k hk hk0

/-- Witness of C2 on the classic LCD at position 2. -/
theorem C2_restricted_cycle_closure_witness :
    ¬ rich_table_selected WATCH_LCD_TYPE_CLASSIC 2
      ∧ advance_orbit WATCH_LCD_TYPE_CLASSIC 2 23 0x20 = restricted_alphabet
      ∧ (fun c => advance_character_at_position WATCH_LCD_TYPE_CLASSIC c 2)^[23] 0x20 = 0x20 :=
  ⟨by decide, (C2_restricted_cycle_closure WATCH_LCD_TYPE_CLASSIC 2 (by decide)).1,
    (C2_restricted_cycle_closure WATCH_LCD_TYPE_CLASSIC 2 (by decide)).2.2.2.1⟩

/-- C3, advance is total and never a no-op: for every byte `c`, every position
and both display types, `advance_character_at_position` gives a byte different
from `c`, the 8-bit wrap of the default rule included. -/
theorem C3_advance_never_noop (lcd : watch_lcd_type_t) (position c : Nat) (hc : c < 256) :
    advance_character_at_position lcd c position < 256
      ∧ advance_character_at_position lcd c position ≠ c := by
  by_cases h : rich_table_selected lcd position
  · rw [advance_rich_eq lcd position c h]; exact advance_rich_byte_ne c hc
  · rw [advance_restricted_eq lcd position c h]; exact advance_restricted_byte_ne c hc

/-- Witness of C3 at the byte 0xFF, where the default rule wraps to 0. -/
theorem C3_advance_never_noop_witness :
    255 < 256 ∧ advance_character_at_position WATCH_LCD_TYPE_CLASSIC 255 3 < 256
      ∧ advance_character_at_position WATCH_LCD_TYPE_CLASSIC 255 3 ≠ 255 :=
  ⟨by decide, C3_advance_never_noop WATCH_LCD_TYPE_CLASSIC 3 255 (by decide)⟩

/-! Properties of the settings store adapter -/

/-- C5, write only on change: `persist_world_clock_settings` issues a write if
and only if the record's 32-bit pattern differs from the stored pattern (the
all-ones pattern for an absent or unreadable file); the only write it can issue
is the one of exactly this record to the instance's file; and when the patterns
are equal the store is left unchanged. -/
theorem C5_write_only_on_change (state : world_clock_state_t) (w : World) :
    ((∃ call ∈ (persist_world_clock_settings state w).2, call.is_file_write = true)
        ↔ state.settings.reg ≠ stored_pattern w (settings_filename state.clock_index))
      ∧ (∀ call ∈ (persist_world_clock_settings state w).2, call.is_file_write = true →
          call = HostCall.filesystem_write_file (settings_filename state.clock_index)
                   state.settings.reg 4)
      ∧ (state.settings.reg ≠ stored_pattern w (settings_filename state.clock_index) →
          (persist_world_clock_settings state w).2
            = [HostCall.filesystem_read_file (settings_filename state.clock_index) 4,
               HostCall.filesystem_write_file (settings_filename state.clock_index)
                 state.settings.reg 4])
      ∧ (state.settings.reg = stored_pattern w (settings_filename state.clock_index) →
          (persist_world_clock_settings state w).1 = w
            ∧ (persist_world_clock_settings state w).2
                = [HostCall.filesystem_read_file (settings_filename state.clock_index) 4]) := by
  have hread : filesystem_read_file w (settings_filename state.clock_index) 0xFFFFFFFF
      = stored_pattern w (settings_filename state.clock_index) := by
    unfold filesystem_read_file stored_pattern
    cases w.files (settings_filename state.clock_index) <;> rfl
  by_cases h : state.settings.reg = stored_pattern w (settings_filename state.clock_index)
  · have hp : persist_world_clock_settings state w
        = (w, [HostCall.filesystem_read_file (settings_filename state.clock_index) 4]) := by
      simp only [persist_world_clock_settings, hread]
      rw [if_neg (by simpa using h)]
    rw [hp]
    simp [h, HostCall.is_file_write]
  · have hp : persist_world_clock_settings state w
        = (filesystem_write_file w (settings_filename state.clock_index) state.settings.reg,
            [HostCall.filesystem_read_file (settings_filename state.clock_index) 4,
             HostCall.filesystem_write_file (settings_filename state.clock_index)
               state.settings.reg 4]) := by
      simp only [persist_world_clock_settings, hread]
      rw [if_pos (by simpa using h)]
    rw [hp]
    simp [h, HostCall.is_file_write]

/-- C6, idempotent persistence: on a store that accepts writes (so that a
written record is what the next read returns), two calls of
`persist_world_clock_settings` in a row with the same state issue at most one
write in total, and the second call issues none. -/
theorem C6_idempotent_persistence (state : world_clock_state_t) (w : World)
    (hw : w.write_fails = false) :
    write_count ((persist_world_clock_settings state w).2
        ++ (persist_world_clock_settings state (persist_world_clock_settings state w).1).2) ≤ 1
      ∧ write_count
          (persist_world_clock_settings state (persist_world_clock_settings state w).1).2 = 0 := by
  by_cases h : state.settings.reg
      = filesystem_read_file w (settings_filename state.clock_index) 0xFFFFFFFF
  · have hp : persist_world_clock_settings state w
        = (w, [HostCall.filesystem_read_file (settings_filename state.clock_index) 4]) := by
      simp only [persist_world_clock_settings]
      rw [if_neg (by simpa using h)]
    rw [hp]
    simp only [hp]
    simp [write_count, HostCall.is_file_write]
  · have hp : persist_world_clock_settings state w
        = (filesystem_write_file w (settings_filename state.clock_index) state.settings.reg,
            [HostCall.filesystem_read_file (settings_filename state.clock_index) 4,
             HostCall.filesystem_write_file (settings_filename state.clock_index)
               state.settings.reg 4]) := by
      simp only [persist_world_clock_settings]
      rw [if_pos (by simpa using h)]
    have hback : filesystem_read_file
        (filesystem_write_file w (settings_filename state.clock_index) state.settings.reg)
        (settings_filename state.clock_index) 0xFFFFFFFF = state.settings.reg := by
      simp [filesystem_read_file, filesystem_write_file, hw]
    have hp2 : persist_world_clock_settings state
        (filesystem_write_file w (settings_filename state.clock_index) state.settings.reg)
        = (filesystem_write_file w (settings_filename state.clock_index) state.settings.reg,
            [HostCall.filesystem_read_file (settings_filename state.clock_index) 4]) := by
      simp only [persist_world_clock_settings, hback]
      rw [if_neg (by simp)]
    rw [hp]
    simp only [hp2]
    simp [write_count, HostCall.is_file_write]

/-- Witness of C6: a fresh record on an empty store is written once. -/
theorem C6_idempotent_persistence_witness :
    example_world.write_fails = false
      ∧ write_count ((persist_world_clock_settings (example_state 1) example_world).2
          ++ (persist_world_clock_settings (example_state 1)
                (persist_world_clock_settings (example_state 1) example_world).1).2) ≤ 1
      ∧ write_count
          (persist_world_clock_settings (example_state 1)
            (persist_world_clock_settings (example_state 1) example_world).1).2 = 0 :=
  ⟨rfl, C6_idempotent_persistence (example_state 1) example_world rfl⟩

/-! Lemmas on the display renderer -/

set_option maxRecDepth 100000 in
theorem sprintf_d_zero_two : ∀ x, x < 100 → sprintf_d 0x30 2 x = two_digits x := by
  decide

set_option maxRecDepth 100000 in
theorem sprintf_d_blank_two : ∀ x, x < 100 → sprintf_d 0x20 2 x = two_digits_blank x := by
  decide

theorem date_time_fields_lt (reg : Nat) :
    date_time_second reg < 100 ∧ date_time_minute reg < 100 ∧ date_time_hour reg < 100
      ∧ date_time_day reg < 100 := by
  unfold date_time_second date_time_minute date_time_hour date_time_day
  omega

theorem shift_six_eq_iff (a b : Nat) (ha : a < 4294967296) (hb : b < 4294967296) :
    a / 64 = b / 64 ↔ agree_above_seconds a b := by
  unfold agree_above_seconds date_time_minute date_time_hour date_time_day date_time_month
    date_time_year
  omega

theorem shift_twelve_eq_iff (a b : Nat) (ha : a < 4294967296) (hb : b < 4294967296) :
    a / 4096 = b / 4096 ↔ agree_above_minutes a b := by
  unfold agree_above_minutes date_time_hour date_time_day date_time_month date_time_year
  omega

/-- The render body outside a low-energy update, tier by tier. -/
theorem display_mode_render_eq (host : Host) (event : movement_event_t)
    (state : world_clock_state_t) (w : World) (calls : List HostCall)
    (hev : event.event_type ≠ EVENT_LOW_ENERGY_UPDATE) :
    (display_mode_render host event state w calls).state.previous_date_time
        = host.movement_get_date_time_in_zone state.settings.timezone_index
      ∧ (display_mode_render host event state w calls).state.settings = state.settings
      ∧ (display_mode_render host event state w calls).state.current_screen
          = state.current_screen
      ∧ (display_mode_render host event state w calls).calls
        = calls ++
          (if host.movement_get_date_time_in_zone state.settings.timezone_index / 64
              = state.previous_date_time / 64 then
            seconds_only_writes (host.movement_get_date_time_in_zone state.settings.timezone_index)
          else if host.movement_get_date_time_in_zone state.settings.timezone_index / 4096
              = state.previous_date_time / 4096 then
            minutes_and_seconds_writes
              (host.movement_get_date_time_in_zone state.settings.timezone_index)
          else
            full_redraw_writes host.lcd_type state.settings
              (host.movement_get_date_time_in_zone state.settings.timezone_index)) := by
  obtain ⟨hs, hm, hh, hd⟩ :=
    date_time_fields_lt (host.movement_get_date_time_in_zone state.settings.timezone_index)
  simp only [display_mode_render, seconds_only_writes, minutes_and_seconds_writes,
    full_redraw_writes, label_day_hour_minute_writes,
    sprintf_d_zero_two _ hs, sprintf_d_zero_two _ hm, sprintf_d_blank_two _ hh,
    sprintf_d_blank_two _ hd]
  split_ifs <;> simp_all [_update_timezone_offset, two_digits, two_digits_blank]

/-! Properties of the display renderer -/

/-- C7, render tiering on an ordinary tick: on `EVENT_TICK` in display mode,
with `new` the date-time fetched and `prev` the stored `previous_date_time`
(both 32-bit), (1) when they agree in every field above the seconds the only
calls are the two seconds glyphs at positions 8 and 9, tens then ones of the
new second; (2) otherwise, when they agree in every field above the minutes,
the only calls are the minutes and the seconds of `new`; (3) otherwise the
calls are label character 0, label character 1, label character 2 on the
custom LCD only, day, hour, minute and seconds.  In every case
`previous_date_time` becomes `new`. -/
theorem C7_render_tiering_on_tick (host : Host) (state : world_clock_state_t) (w : World)
    (subsecond : Nat)
    (hnew : host.movement_get_date_time_in_zone state.settings.timezone_index < 4294967296)
    (hprev : state.previous_date_time < 4294967296) :
    (world_clock_face_do_display_mode host ⟨EVENT_TICK, subsecond⟩ state w).state.previous_date_time
        = host.movement_get_date_time_in_zone state.settings.timezone_index
      ∧ (agree_above_seconds
            (host.movement_get_date_time_in_zone state.settings.timezone_index)
            state.previous_date_time →
          (world_clock_face_do_display_mode host ⟨EVENT_TICK, subsecond⟩ state w).calls
            = seconds_only_writes
                (host.movement_get_date_time_in_zone state.settings.timezone_index))
      ∧ (¬ agree_above_seconds
            (host.movement_get_date_time_in_zone state.settings.timezone_index)
            state.previous_date_time →
          agree_above_minutes
            (host.movement_get_date_time_in_zone state.settings.timezone_index)
            state.previous_date_time →
          (world_clock_face_do_display_mode host ⟨EVENT_TICK, subsecond⟩ state w).calls
            = minutes_and_seconds_writes
                (host.movement_get_date_time_in_zone state.settings.timezone_index))
      ∧ (¬ agree_above_minutes
            (host.movement_get_date_time_in_zone state.settings.timezone_index)
            state.previous_date_time →
          (world_clock_face_do_display_mode host ⟨EVENT_TICK, subsecond⟩ state w).calls
            = full_redraw_writes host.lcd_type state.settings
                (host.movement_get_date_time_in_zone state.settings.timezone_index)) := by
  have hev : (⟨EVENT_TICK, subsecond⟩ : movement_event_t).event_type ≠ EVENT_LOW_ENERGY_UPDATE := by
    simp
  have hdef : world_clock_face_do_display_mode host ⟨EVENT_TICK, subsecond⟩ state w
      = display_mode_render host ⟨EVENT_TICK, subsecond⟩ state w [] := rfl
  obtain ⟨h1, -, -, h4⟩ := display_mode_render_eq host ⟨EVENT_TICK, subsecond⟩ state w [] hev
  have e6 := shift_six_eq_iff _ _ hnew hprev
  have e12 := shift_twelve_eq_iff _ _ hnew hprev
  rw [hdef, h4]
  refine ⟨h1, ?_, ?_, ?_⟩
  · intro h
    rw [if_pos (e6.mpr h)]; rfl
  · intro h h'
    rw [if_neg (fun x => h (e6.mp x)), if_pos (e12.mpr h')]; rfl
  · intro h
    have h6 : ¬ agree_above_seconds
        (host.movement_get_date_time_in_zone state.settings.timezone_index)
        state.previous_date_time := fun h' => h ⟨h'.2.1, h'.2.2.1, h'.2.2.2.1, h'.2.2.2.2⟩
    rw [if_neg (fun x => h6 (e6.mp x)), if_neg (fun x => h (e12.mp x))]; rfl

/-- Witness of C7: one second after the last frame only the seconds are
written. -/
theorem C7_render_tiering_on_tick_witness :
    example_host.movement_get_date_time_in_zone (example_state 0).settings.timezone_index
        < 4294967296
      ∧ (example_state 0).previous_date_time < 4294967296
      ∧ (world_clock_face_do_display_mode example_host ⟨EVENT_TICK, 0⟩ (example_state 0)
            example_world).calls
          = seconds_only_writes example_date_time :=
  ⟨by decide, by decide,
    (C7_render_tiering_on_tick example_host (example_state 0) example_world 0
      (by decide) (by decide)).2.1 (by decide)⟩

/-- C8, activation forces a full redraw: for every face state, whatever
`previous_date_time` held, and every current date-time whose fields are in
calendar range, `EVENT_ACTIVATE` in display mode sets the colon and then writes
the label characters, day, hour, minute and seconds; the all-ones pattern
equals the date-time neither after dropping the seconds nor after dropping
seconds and minutes. -/
theorem C8_activation_forces_full_redraw (host : Host) (state : world_clock_state_t)
    (w : World) (subsecond : Nat)
    (hrange : date_time_in_calendar_range
      (host.movement_get_date_time_in_zone state.settings.timezone_index)) :
    (world_clock_face_do_display_mode host ⟨EVENT_ACTIVATE, subsecond⟩ state w).calls
        = [HostCall.watch_set_colon]
          ++ full_redraw_writes host.lcd_type state.settings
              (host.movement_get_date_time_in_zone state.settings.timezone_index)
      ∧ host.movement_get_date_time_in_zone state.settings.timezone_index / 64
          ≠ 0xFFFFFFFF / 64
      ∧ host.movement_get_date_time_in_zone state.settings.timezone_index / 4096
          ≠ 0xFFFFFFFF / 4096
      ∧ (world_clock_face_do_display_mode host ⟨EVENT_ACTIVATE, subsecond⟩ state
            w).state.previous_date_time
          = host.movement_get_date_time_in_zone state.settings.timezone_index := by
  have hev : (⟨EVENT_ACTIVATE, subsecond⟩ : movement_event_t).event_type
      ≠ EVENT_LOW_ENERGY_UPDATE := by simp
  have hdef : world_clock_face_do_display_mode host ⟨EVENT_ACTIVATE, subsecond⟩ state w
      = display_mode_render host ⟨EVENT_ACTIVATE, subsecond⟩
          { state with previous_date_time := 0xFFFFFFFF } w [HostCall.watch_set_colon] := rfl
  obtain ⟨h1, -, -, h4⟩ := display_mode_render_eq host ⟨EVENT_ACTIVATE, subsecond⟩
    { state with previous_date_time := 0xFFFFFFFF } w [HostCall.watch_set_colon] hev
  have h6 : host.movement_get_date_time_in_zone state.settings.timezone_index / 64
      ≠ 0xFFFFFFFF / 64 := by
    unfold date_time_in_calendar_range date_time_minute at hrange
    omega
  have h12 : host.movement_get_date_time_in_zone state.settings.timezone_index / 4096
      ≠ 0xFFFFFFFF / 4096 := by
    unfold date_time_in_calendar_range date_time_hour at hrange
    omega
  refine ⟨?_, h6, h12, ?_⟩
  · rw [hdef, h4]
    simp only [if_neg h6, if_neg h12]
  · rw [hdef]; exact h1

/-- Witness of C8 on the example host. -/
theorem C8_activation_forces_full_redraw_witness :
    date_time_in_calendar_range
        (example_host.movement_get_date_time_in_zone (example_state 0).settings.timezone_index)
      ∧ (world_clock_face_do_display_mode example_host ⟨EVENT_ACTIVATE, 0⟩ (example_state 0)
            example_world).calls
          = [HostCall.watch_set_colon]
            ++ full_redraw_writes example_host.lcd_type (example_state 0).settings
                (example_host.movement_get_date_time_in_zone
                  (example_state 0).settings.timezone_index) :=
  ⟨by decide,
    (C8_activation_forces_full_redraw example_host (example_state 0) example_world 0
      (by decide)).1⟩

/-! Lemmas on the face controller -/

theorem list_length_six {α : Type} (l : List α) (h : l.length = 6) :
    ∃ a b c d e f, l = [a, b, c, d, e, f] := by
  match l, h with
  | [a, b, c, d, e, f], _ => exact ⟨a, b, c, d, e, f, rfl⟩

/-- With six-character zone names the redraw stays inside its buffer: it
returns, keeps state and host as they are and adds its three calls. -/
theorem settings_mode_redraw_some (host : Host) (event : movement_event_t)
    (state : world_clock_state_t) (w : World) (calls : List HostCall)
    (hnames : host.zone_names_six) :
    ∃ shown, settings_mode_redraw host event state w calls
      = some { handled := true, state := state, world := w,
               calls := calls ++
                 [HostCall.watch_clear_colon,
                  HostCall.watch_clear_indicator WATCH_INDICATOR_PM,
                  HostCall.watch_display_text WATCH_POSITION_FULL shown] } := by
  obtain ⟨a, b, c, d, e, f, hn⟩ := list_length_six _ (hnames state.settings.timezone_index)
  simp only [settings_mode_redraw, hn]
  by_cases h1 : state.current_screen = 1
  · simp only [h1]
    simp [c_string, memcpy_at, List.range, List.range.loop]
    split_ifs <;> simp_all
  · by_cases h2 : state.current_screen = 2
    · simp only [h2]
      simp [c_string, memcpy_at, List.range, List.range.loop]
      split_ifs <;> simp_all
    · simp [h1, h2, c_string, memcpy_at, List.range, List.range.loop]
      split_ifs <;> simp_all

/-- The alarm button in settings mode: the inner switch, then the redraw. -/
theorem settings_mode_alarm_some (host : Host) (subsecond : Nat)
    (state : world_clock_state_t) (w : World) (hnames : host.zone_names_six) :
    ∃ out, _world_clock_face_do_settings_mode host ⟨EVENT_ALARM_BUTTON_DOWN, subsecond⟩ state w
        = some out
      ∧ out.state = settings_mode_alarm_button host state ∧ out.world = w := by
  obtain ⟨shown, h⟩ := settings_mode_redraw_some host ⟨EVENT_ALARM_BUTTON_DOWN, subsecond⟩
    (settings_mode_alarm_button host state) w [] hnames
  exact ⟨_, h, rfl, rfl⟩

/-- The inner switch on a page that cycles the zone. -/
theorem alarm_button_timezone (host : Host) (state : world_clock_state_t)
    (hpage : state.current_screen = 4
      ∨ (state.current_screen = 3 ∧ host.lcd_type = WATCH_LCD_TYPE_CLASSIC)) :
    settings_mode_alarm_button host state
      = { state with settings := { state.settings with
            timezone_index :=
              if (state.settings.timezone_index + 1) % 256 ≥ host.NUM_ZONE_NAMES then 0
              else (state.settings.timezone_index + 1) % 256 } } := by
  rcases hpage with h | ⟨h, hl⟩
  · simp [settings_mode_alarm_button, h]
  · simp [settings_mode_alarm_button, h, hl]

theorem persist_calls_cases (state : world_clock_state_t) (w : World) :
    (persist_world_clock_settings state w).2
        = [HostCall.filesystem_read_file (settings_filename state.clock_index) 4]
      ∨ (persist_world_clock_settings state w).2
        = [HostCall.filesystem_read_file (settings_filename state.clock_index) 4,
           HostCall.filesystem_write_file (settings_filename state.clock_index)
             state.settings.reg 4] := by
  simp only [persist_world_clock_settings]
  split_ifs
  · right; rfl
  · left; rfl

/-- An activation in display mode: its calls and the stored date-time depend
on the settings only, every call it makes is a display call, and the screen
number is kept. -/
theorem display_mode_activate_congr (host : Host) (s1 s2 : Nat)
    (st st2 : world_clock_state_t) (w w2 : World) (h : st2.settings = st.settings) :
    (world_clock_face_do_display_mode host ⟨EVENT_ACTIVATE, s1⟩ st w).calls
        = (world_clock_face_do_display_mode host ⟨EVENT_ACTIVATE, s2⟩ st2 w2).calls
      ∧ (world_clock_face_do_display_mode host ⟨EVENT_ACTIVATE, s1⟩ st w).state.previous_date_time
        = (world_clock_face_do_display_mode host ⟨EVENT_ACTIVATE, s2⟩ st2
            w2).state.previous_date_time
      ∧ (world_clock_face_do_display_mode host ⟨EVENT_ACTIVATE, s1⟩ st w).state.current_screen
        = st.current_screen
      ∧ (world_clock_face_do_display_mode host ⟨EVENT_ACTIVATE, s1⟩ st w).calls.filter
          HostCall.is_display_call
        = (world_clock_face_do_display_mode host ⟨EVENT_ACTIVATE, s1⟩ st w).calls
      ∧ read_count (world_clock_face_do_display_mode host ⟨EVENT_ACTIVATE, s1⟩ st w).calls = 0 := by
  simp only [world_clock_face_do_display_mode, display_mode_render, h, read_count]
  split_ifs <;> first
    | contradiction
    | simp [_update_timezone_offset, HostCall.is_display_call, HostCall.is_file_read]

/-! Properties of the face controller -/

/-- C4, page-rollover commit: in the last settings page of the display at hand
(page 3 on the classic LCD, page 4 on the custom one) a light-button-down
event returns with `current_screen == 0`, makes exactly one call of
`persist_world_clock_settings` (its calls, among them the only file read,
appear once, between the tick-frequency request and the rendering), and its
display calls and the resulting `previous_date_time` are those of the
display-mode handler on `EVENT_ACTIVATE` for any state with the same settings
under the same host clock. -/
theorem C4_page_rollover_commit (host : Host) (state : world_clock_state_t) (w : World)
    (subsecond : Nat) (hlast : in_last_settings_page host state) :
    ∃ out, _world_clock_face_do_settings_mode host ⟨EVENT_LIGHT_BUTTON_DOWN, subsecond⟩ state w
        = some out
      ∧ out.state.current_screen = 0
      ∧ read_count out.calls = 1
      ∧ out.calls
          = [HostCall.movement_request_tick_frequency 1]
            ++ (persist_world_clock_settings
                  { _update_timezone_offset host state with current_screen := 0 } w).2
            ++ (world_clock_face_do_display_mode host ⟨EVENT_ACTIVATE, subsecond⟩
                  { _update_timezone_offset host state with current_screen := 0 }
                  (persist_world_clock_settings
                    { _update_timezone_offset host state with current_screen := 0 } w).1).calls
      ∧ ∀ (state2 : world_clock_state_t) (w2 : World) (subsecond2 : Nat),
          state2.settings = state.settings →
          out.calls.filter HostCall.is_display_call
              = ((world_clock_face_do_display_mode host ⟨EVENT_ACTIVATE, subsecond2⟩ state2
                    w2).calls).filter HostCall.is_display_call
            ∧ out.state.previous_date_time
              = (world_clock_face_do_display_mode host ⟨EVENT_ACTIVATE, subsecond2⟩ state2
                  w2).state.previous_date_time := by
  have hcond : ((decide (host.lcd_type = WATCH_LCD_TYPE_CUSTOM) = true
        ∧ (state.current_screen + 1) % 256 > 4)
      ∨ (¬ decide (host.lcd_type = WATCH_LCD_TYPE_CUSTOM) = true
        ∧ (state.current_screen + 1) % 256 > 3)) := by
    rcases hlast with ⟨hl, hp⟩ | ⟨hl, hp⟩
    · right; simp [hl, hp]
    · left; simp [hl, hp]
  have hdef : _world_clock_face_do_settings_mode host ⟨EVENT_LIGHT_BUTTON_DOWN, subsecond⟩ state w
      = some { world_clock_face_do_display_mode host ⟨EVENT_ACTIVATE, subsecond⟩
                  { _update_timezone_offset host state with current_screen := 0 }
                  (persist_world_clock_settings
                    { _update_timezone_offset host state with current_screen := 0 } w).1 with
               calls := [HostCall.movement_request_tick_frequency 1]
                 ++ (persist_world_clock_settings
                      { _update_timezone_offset host state with current_screen := 0 } w).2
                 ++ (world_clock_face_do_display_mode host ⟨EVENT_ACTIVATE, subsecond⟩
                      { _update_timezone_offset host state with current_screen := 0 }
                      (persist_world_clock_settings
                        { _update_timezone_offset host state with current_screen := 0 }
                        w).1).calls } := by
    simp only [_world_clock_face_do_settings_mode]
    rw [if_pos hcond]
    rfl
  refine ⟨_, hdef, ?_, ?_, rfl, ?_⟩
  · exact (display_mode_activate_congr host subsecond subsecond
      { _update_timezone_offset host state with current_screen := 0 }
      { _update_timezone_offset host state with current_screen := 0 }
      (persist_world_clock_settings
        { _update_timezone_offset host state with current_screen := 0 } w).1
      (persist_world_clock_settings
        { _update_timezone_offset host state with current_screen := 0 } w).1 rfl).2.2.1
  · have h0 := (display_mode_activate_congr host subsecond subsecond
      { _update_timezone_offset host state with current_screen := 0 }
      { _update_timezone_offset host state with current_screen := 0 }
      (persist_world_clock_settings
        { _update_timezone_offset host state with current_screen := 0 } w).1
      (persist_world_clock_settings
        { _update_timezone_offset host state with current_screen := 0 } w).1 rfl).2.2.2.2
    simp only [read_count] at h0 ⊢
    rcases persist_calls_cases { _update_timezone_offset host state with current_screen := 0 } w
      with hp | hp
    · simp only [hp, List.filter_append, List.length_append, h0]
      simp [HostCall.is_file_read]
    · simp only [hp, List.filter_append, List.length_append, h0]
      simp [HostCall.is_file_read]
  · intro state2 w2 subsecond2 hs
    have hc := display_mode_activate_congr host subsecond subsecond2
      { _update_timezone_offset host state with current_screen := 0 } state2
      (persist_world_clock_settings
        { _update_timezone_offset host state with current_screen := 0 } w).1 w2
      (by rw [hs]; rfl)
    refine ⟨?_, hc.2.1⟩
    simp only [List.filter_append]
    rw [hc.2.2.2.1, ← hc.1]
    have hp : (persist_world_clock_settings
        { _update_timezone_offset host state with current_screen := 0 } w).2.filter
          HostCall.is_display_call = [] := by
      rcases persist_calls_cases { _update_timezone_offset host state with current_screen := 0 } w
        with hp | hp <;> rw [hp] <;> simp [HostCall.is_display_call]
    rw [hp, hc.2.2.2.1]
    simp [HostCall.is_display_call]

/-- Witness of C4: page 3 on the classic LCD. -/
theorem C4_page_rollover_commit_witness :
    in_last_settings_page example_host (example_state 3)
      ∧ ∃ out, _world_clock_face_do_settings_mode example_host ⟨EVENT_LIGHT_BUTTON_DOWN, 0⟩
            (example_state 3) example_world = some out
          ∧ out.state.current_screen = 0 ∧ read_count out.calls = 1 :=
  ⟨by decide,
    let ⟨out, h1, h2, h3, _⟩ :=
      C4_page_rollover_commit example_host (example_state 3) example_world 0 (by decide)
    ⟨out, h1, h2, h3⟩⟩

/-- The successor of a byte is a byte different from it, in both tables. -/
theorem advance_ne_self (lcd : watch_lcd_type_t) (position c : Nat) (hc : c < 256) :
    advance_character_at_position lcd c position ≠ c := by
  by_cases h : rich_table_selected lcd position
  · rw [advance_rich_eq lcd position c h]; exact (advance_rich_byte_ne c hc).2
  · rw [advance_restricted_eq lcd position c h]; exact (advance_restricted_byte_ne c hc).2

/-- C9, alarm-button field binding and frame: in settings mode (byte-sized
settings fields, six-character zone names) an alarm-button-down event
returns and leaves `current_screen` as it was; on page 1 the state changes in
`char_0` only, which becomes the successor of `char_0` at position 0; on page 2
in `char_1` only (position 1); on page 3 of the custom LCD in `char_2` only
(position 2); on page 3 of the classic LCD and on page 4 in `timezone_index`
only, with the same resulting settings as page 4 gives; the character fields
always take a new value, and so does the zone index when the table has at
least two names. -/
theorem C9_alarm_button_field_binding (host : Host) (state : world_clock_state_t) (w : World)
    (subsecond : Nat) (hwf : state.settings.wf) (hnames : host.zone_names_six) :
    ∃ out, _world_clock_face_do_settings_mode host ⟨EVENT_ALARM_BUTTON_DOWN, subsecond⟩ state w
        = some out
      ∧ out.state.current_screen = state.current_screen
      ∧ (state.current_screen = 1 →
          out.state = { state with settings := { state.settings with
              char_0 := advance_character_at_position host.lcd_type state.settings.char_0 0 } }
            ∧ out.state.settings.char_0 ≠ state.settings.char_0)
      ∧ (state.current_screen = 2 →
          out.state = { state with settings := { state.settings with
              char_1 := advance_character_at_position host.lcd_type state.settings.char_1 1 } }
            ∧ out.state.settings.char_1 ≠ state.settings.char_1)
      ∧ (state.current_screen = 3 → host.lcd_type = WATCH_LCD_TYPE_CUSTOM →
          out.state = { state with settings := { state.settings with
              char_2 := advance_character_at_position host.lcd_type state.settings.char_2 2 } }
            ∧ out.state.settings.char_2 ≠ state.settings.char_2)
      ∧ ((state.current_screen = 3 ∧ host.lcd_type = WATCH_LCD_TYPE_CLASSIC)
            ∨ state.current_screen = 4 →
          out.state = { state with settings := { state.settings with
              timezone_index := out.state.settings.timezone_index } }
            ∧ (∃ out4, _world_clock_face_do_settings_mode host
                  ⟨EVENT_ALARM_BUTTON_DOWN, subsecond⟩ { state with current_screen := 4 } w
                  = some out4
                ∧ out.state.settings = out4.state.settings)
            ∧ (2 ≤ host.NUM_ZONE_NAMES →
                out.state.settings.timezone_index ≠ state.settings.timezone_index)) := by
  obtain ⟨out, hout, hst, -⟩ := settings_mode_alarm_some host subsecond state w hnames
  obtain ⟨h0, h1, h2, h3⟩ := hwf
  refine ⟨out, hout, ?_, ?_, ?_, ?_, ?_⟩
  · rw [hst]
    simp only [settings_mode_alarm_button]
    split_ifs <;> rfl
  · intro hp
    have e : out.state = { state with settings := { state.settings with
        char_0 := advance_character_at_position host.lcd_type state.settings.char_0 0 } } := by
      rw [hst]; simp [settings_mode_alarm_button, hp]
    refine ⟨e, ?_⟩
    rw [e]; exact advance_ne_self host.lcd_type 0 _ h0
  · intro hp
    have e : out.state = { state with settings := { state.settings with
        char_1 := advance_character_at_position host.lcd_type state.settings.char_1 1 } } := by
      rw [hst]; simp [settings_mode_alarm_button, hp]
    refine ⟨e, ?_⟩
    rw [e]; exact advance_ne_self host.lcd_type 1 _ h1
  · intro hp hl
    have e : out.state = { state with settings := { state.settings with
        char_2 := advance_character_at_position host.lcd_type state.settings.char_2 2 } } := by
      rw [hst]; simp [settings_mode_alarm_button, hp, hl]
    refine ⟨e, ?_⟩
    rw [e]; exact advance_ne_self host.lcd_type 2 _ h2
  · intro hp
    have hp' : state.current_screen = 4
        ∨ (state.current_screen = 3 ∧ host.lcd_type = WATCH_LCD_TYPE_CLASSIC) := by
      rcases hp with h | h
      · exact Or.inr h
      · exact Or.inl h
    have e := alarm_button_timezone host state hp'
    have e4 := alarm_button_timezone host { state with current_screen := 4 } (Or.inl rfl)
    obtain ⟨out4, hout4, hst4, -⟩ :=
      settings_mode_alarm_some host subsecond { state with current_screen := 4 } w hnames
    refine ⟨?_, ⟨out4, hout4, ?_⟩, ?_⟩
    · rw [hst, e]
    · rw [hst, hst4, e, e4]
    · intro hN
      rw [hst, e]
      show (if (state.settings.timezone_index + 1) % 256 ≥ host.NUM_ZONE_NAMES then 0
        else (state.settings.timezone_index + 1) % 256) ≠ state.settings.timezone_index
      split_ifs <;> omega

/-- Witness of C9: page 3 on the classic LCD cycles the zone 99 to 0. -/
theorem C9_alarm_button_field_binding_witness :
    (example_state 3).settings.wf ∧ example_host.zone_names_six
      ∧ ∃ out, _world_clock_face_do_settings_mode example_host ⟨EVENT_ALARM_BUTTON_DOWN, 1⟩
            (example_state 3) example_world = some out
          ∧ out.state.current_screen = (example_state 3).current_screen :=
  ⟨by decide, fun _ => rfl,
    let ⟨out, h1, h2, _⟩ :=
      C9_alarm_button_field_binding example_host (example_state 3) example_world 1
        (by decide) (fun _ => rfl)
    ⟨out, h1, h2⟩⟩

/-- C10, timezone cycling stays in range and wraps: on a page that cycles the
zone (page 4, or page 3 on the classic LCD), with `timezone_index` below
`NUM_ZONE_NAMES` and a table that an 8-bit index can address, an
alarm-button-down event returns with `timezone_index` equal to
`(old + 1) mod NUM_ZONE_NAMES`, which is again below `NUM_ZONE_NAMES`; from
`NUM_ZONE_NAMES - 1` it wraps to 0. -/
theorem C10_timezone_cycling (host : Host) (state : world_clock_state_t) (w : World)
    (subsecond : Nat)
    (hpage : state.current_screen = 4
      ∨ (state.current_screen = 3 ∧ host.lcd_type = WATCH_LCD_TYPE_CLASSIC))
    (hidx : state.settings.timezone_index < host.NUM_ZONE_NAMES)
    (htable : host.NUM_ZONE_NAMES ≤ 256)
    (hnames : host.zone_names_six) :
    ∃ out, _world_clock_face_do_settings_mode host ⟨EVENT_ALARM_BUTTON_DOWN, subsecond⟩ state w
        = some out
      ∧ out.state.settings.timezone_index
          = (state.settings.timezone_index + 1) % host.NUM_ZONE_NAMES
      ∧ out.state.settings.timezone_index < host.NUM_ZONE_NAMES
      ∧ (state.settings.timezone_index = host.NUM_ZONE_NAMES - 1 →
          out.state.settings.timezone_index = 0) := by
  obtain ⟨out, hout, hst, -⟩ := settings_mode_alarm_some host subsecond state w hnames
  have e := alarm_button_timezone host state hpage
  have hv : out.state.settings.timezone_index
      = if (state.settings.timezone_index + 1) % 256 ≥ host.NUM_ZONE_NAMES then 0
        else (state.settings.timezone_index + 1) % 256 := by
    rw [hst, e]
  have hmod : (state.settings.timezone_index + 1) % host.NUM_ZONE_NAMES
      = if (state.settings.timezone_index + 1) % 256 ≥ host.NUM_ZONE_NAMES then 0
        else (state.settings.timezone_index + 1) % 256 := by
    by_cases hlast : state.settings.timezone_index + 1 = host.NUM_ZONE_NAMES
    · rw [hlast, Nat.mod_self]
      split_ifs with h
      · rfl
      · omega
    · have hlt : state.settings.timezone_index + 1 < host.NUM_ZONE_NAMES := by omega
      rw [Nat.mod_eq_of_lt hlt]
      have h256 : (state.settings.timezone_index + 1) % 256
          = state.settings.timezone_index + 1 := Nat.mod_eq_of_lt (by omega)
      rw [h256, if_neg (by omega)]
  refine ⟨out, hout, ?_, ?_, ?_⟩
  · rw [hv, hmod]
  · rw [hv]; split_ifs <;> omega
  · intro hl
    rw [hv]; split_ifs <;> omega

/-- Witness of C10: zone 99 of 100 wraps to zone 0 on page 3 of the classic
LCD. -/
theorem C10_timezone_cycling_witness :
    ((example_state 3).current_screen = 4
        ∨ ((example_state 3).current_screen = 3
            ∧ example_host.lcd_type = WATCH_LCD_TYPE_CLASSIC))
      ∧ (example_state 3).settings.timezone_index < example_host.NUM_ZONE_NAMES
      ∧ example_host.NUM_ZONE_NAMES ≤ 256
      ∧ example_host.zone_names_six
      ∧ ∃ out, _world_clock_face_do_settings_mode example_host ⟨EVENT_ALARM_BUTTON_DOWN, 1⟩
            (example_state 3) example_world = some out
          ∧ out.state.settings.timezone_index = 0 :=
  ⟨by decide, by decide, by decide, fun _ => rfl,
    let ⟨out, h1, _, _, h4⟩ :=
      C10_timezone_cycling example_host (example_state 3) example_world 1
        (by decide) (by decide) (by decide) (fun _ => rfl)
    ⟨out, h1, h4 (by decide)⟩⟩

/-! Scenarios and event dispatch -/

/-- In settings mode the loop is the settings handler. -/
theorem loop_settings_mode (host : Host) (event : movement_event_t)
    (state : world_clock_state_t) (w : World) (h : state.current_screen ≠ 0) :
    world_clock_face_loop host event state w
      = _world_clock_face_do_settings_mode host event state w := by
  simp [world_clock_face_loop, h]

/-- One alarm press in settings page 1: `char_0` advances at position 0 and
nothing else changes. -/
theorem alarm_press_page_one (host : Host) (subsecond : Nat) (state : world_clock_state_t)
    (w : World) (hnames : host.zone_names_six) (hp : state.current_screen = 1) :
    ∃ out, world_clock_face_loop host ⟨EVENT_ALARM_BUTTON_DOWN, subsecond⟩ state w = some out
      ∧ out.state = { state with settings := { state.settings with
          char_0 := advance_character_at_position host.lcd_type state.settings.char_0 0 } }
      ∧ out.world = w := by
  obtain ⟨out, hout, hst, hw⟩ := settings_mode_alarm_some host subsecond state w hnames
  refine ⟨out, ?_, ?_, hw⟩
  · rw [loop_settings_mode host _ state w (by omega)]; exact hout
  · rw [hst]; simp [settings_mode_alarm_button, hp]

/-- Three alarm presses in settings page 1 advance `char_0` three times at
position 0. -/
theorem three_alarm_presses_page_one (host : Host) (s1 s2 s3 : Nat)
    (state : world_clock_state_t) (w : World) (hnames : host.zone_names_six)
    (hp : state.current_screen = 1) :
    run_events host
        [⟨EVENT_ALARM_BUTTON_DOWN, s1⟩, ⟨EVENT_ALARM_BUTTON_DOWN, s2⟩,
         ⟨EVENT_ALARM_BUTTON_DOWN, s3⟩] state w
      = some ({ state with settings := { state.settings with
          char_0 := advance_character_at_position host.lcd_type
            (advance_character_at_position host.lcd_type
              (advance_character_at_position host.lcd_type state.settings.char_0 0) 0) 0 } },
          w) := by
  obtain ⟨o1, h1, e1, w1⟩ := alarm_press_page_one host s1 state w hnames hp
  obtain ⟨o2, h2, e2, w2⟩ := alarm_press_page_one host s2 o1.state o1.world hnames
    (by rw [e1]; exact hp)
  obtain ⟨o3, h3, e3, w3⟩ := alarm_press_page_one host s3 o2.state o2.world hnames
    (by rw [e2, e1]; exact hp)
  simp only [run_events, h1, h2, h3]
  rw [e3, w3, e2, w2, e1, w1]

theorem advance_thrice_from_space (lcd : watch_lcd_type_t) :
    advance_character_at_position lcd
      (advance_character_at_position lcd (advance_character_at_position lcd 0x20 0) 0) 0
      = 0x43 := by
  cases lcd <;> decide

/-- C11, amended scenario: on the classic LCD, in settings page 1 with
`char_0` a space, three successive alarm-button-down events are handled and
result in `char_0 = 'C'` (0x43): position 0 uses the rich table on every
display, space, A, B, C. -/
theorem C11_three_presses_give_C (host : Host) (s1 s2 s3 : Nat)
    (state : world_clock_state_t) (w : World)
    (hlcd : host.lcd_type = WATCH_LCD_TYPE_CLASSIC) (hnames : host.zone_names_six)
    (hp : state.current_screen = 1) (hc : state.settings.char_0 = 0x20) :
    ∃ final, run_events host
        [⟨EVENT_ALARM_BUTTON_DOWN, s1⟩, ⟨EVENT_ALARM_BUTTON_DOWN, s2⟩,
         ⟨EVENT_ALARM_BUTTON_DOWN, s3⟩] state w = some final
      ∧ final.1.settings.char_0 = 0x43 := by
  refine ⟨_, three_alarm_presses_page_one host s1 s2 s3 state w hnames hp, ?_⟩
  show advance_character_at_position host.lcd_type
      (advance_character_at_position host.lcd_type
        (advance_character_at_position host.lcd_type state.settings.char_0 0) 0) 0 = 0x43
  rw [hc, hlcd]
  exact advance_thrice_from_space WATCH_LCD_TYPE_CLASSIC

/-- Witness of C11 on the example host. -/
theorem C11_three_presses_give_C_witness :
    example_host.lcd_type = WATCH_LCD_TYPE_CLASSIC ∧ example_host.zone_names_six
      ∧ (example_state 1).current_screen = 1 ∧ (example_state 1).settings.char_0 = 0x20
      ∧ ∃ final, run_events example_host
            [⟨EVENT_ALARM_BUTTON_DOWN, 0⟩, ⟨EVENT_ALARM_BUTTON_DOWN, 1⟩,
             ⟨EVENT_ALARM_BUTTON_DOWN, 2⟩] (example_state 1) example_world = some final
          ∧ final.1.settings.char_0 = 0x43 :=
  ⟨rfl, fun _ => rfl, rfl, rfl,
    C11_three_presses_give_C example_host 0 1 2 (example_state 1) example_world rfl
      (fun _ => rfl) rfl rfl⟩

/-- Counterexample to C11 as stated: on the classic LCD, in settings page 1
with `char_0` a space, three alarm-button-down events do not give
`char_0 = 'F'` (0x46). -/
theorem C11_three_presses_not_F :
    ¬ ∃ final, run_events example_host
          [⟨EVENT_ALARM_BUTTON_DOWN, 0⟩, ⟨EVENT_ALARM_BUTTON_DOWN, 1⟩,
           ⟨EVENT_ALARM_BUTTON_DOWN, 2⟩] (example_state 1) example_world = some final
        ∧ final.1.settings.char_0 = 0x46 := by
  rintro ⟨final, hrun, hF⟩
  rw [three_alarm_presses_page_one example_host 0 1 2 (example_state 1) example_world
    (fun _ => rfl) rfl] at hrun
  cases hrun
  revert hF
  decide

theorem takeWhile_six_nonzero (l : List Nat) (a b c d e f : Nat)
    (h : l.takeWhile (· ≠ 0) = [a, b, c, d, e, f]) :
    a ≠ 0 ∧ b ≠ 0 ∧ c ≠ 0 ∧ d ≠ 0 ∧ e ≠ 0 ∧ f ≠ 0 := by
  have key : ∀ x ∈ [a, b, c, d, e, f], x ≠ 0 := by
    intro x hx
    rw [← h] at hx
    simpa using List.mem_takeWhile_imp hx
  simp only [List.forall_mem_cons] at key
  exact ⟨key.1, key.2.1, key.2.2.1, key.2.2.2.1, key.2.2.2.2.1, key.2.2.2.2.2.1⟩

/-- The redraw for a six-character zone name and label characters other than
NUL: it returns, and the text handed to the display is the settings text on an
even sub-second and the blinked text on an odd one. -/
theorem settings_mode_redraw_text (host : Host) (event : movement_event_t)
    (state : world_clock_state_t) (w : World) (calls : List HostCall)
    (hname : ((host.watch_utility_time_zone_name_at_index
      state.settings.timezone_index).takeWhile (· ≠ 0)).length = 6)
    (h0 : state.settings.char_0 ≠ 0) (h1 : state.settings.char_1 ≠ 0)
    (h2 : state.settings.char_2 ≠ 0) :
    settings_mode_redraw host event state w calls
      = some { handled := true, state := state, world := w,
               calls := calls ++
                 [HostCall.watch_clear_colon,
                  HostCall.watch_clear_indicator WATCH_INDICATOR_PM,
                  HostCall.watch_display_text WATCH_POSITION_FULL
                    (if event.subsecond % 2 = 0 then
                      settings_text state.settings
                        ((host.watch_utility_time_zone_name_at_index
                          state.settings.timezone_index).takeWhile (· ≠ 0))
                    else
                      settings_text_blinked host.lcd_type state.current_screen state.settings
                        ((host.watch_utility_time_zone_name_at_index
                          state.settings.timezone_index).takeWhile (· ≠ 0)))] } := by
  obtain ⟨a, b, c, d, e, f, hn⟩ := list_length_six _ hname
  obtain ⟨ha, hb, hc, hd, he, hf⟩ := takeWhile_six_nonzero _ _ _ _ _ _ _ hn
  simp only [settings_mode_redraw, settings_text_blinked, settings_text, hn]
  by_cases hodd : event.subsecond % 2 = 0
  · simp [hodd, c_string, h0, h1, h2, ha, hb, hc, hd, he, hf, List.range, List.range.loop]
  · by_cases p1 : state.current_screen = 1
    · simp [hodd, p1, c_string, h0, h1, h2, ha, hb, hc, hd, he, hf, List.range,
        List.range.loop]
    · by_cases p2 : state.current_screen = 2
      · simp [hodd, p2, c_string, h0, h1, h2, ha, hb, hc, hd, he, hf, List.range,
          List.range.loop]
      · by_cases p3 : state.current_screen = 3
        · cases hl : host.lcd_type <;>
            simp [hodd, p3, hl, c_string, memcpy_at, h0, h1, h2, ha, hb, hc, hd, he, hf,
              List.range, List.range.loop]
        · by_cases p4 : state.current_screen = 4
          · simp [hodd, p4, c_string, memcpy_at, h0, h1, h2, ha, hb, hc, hd, he, hf,
              List.range, List.range.loop]
          · simp [hodd, p1, p2, p3, p4, c_string, h0, h1, h2, ha, hb, hc, hd, he, hf,
              List.range, List.range.loop]

/-- The idle timeout in settings mode: one persist, the request to move to
face 0, then the redraw; the face state is not touched. -/
theorem settings_mode_timeout_some (host : Host) (subsecond : Nat)
    (state : world_clock_state_t) (w : World) (hnames : host.zone_names_six) :
    ∃ shown, _world_clock_face_do_settings_mode host ⟨EVENT_TIMEOUT, subsecond⟩ state w
      = some { handled := true, state := state,
               world := (persist_world_clock_settings state w).1,
               calls := (persist_world_clock_settings state w).2
                 ++ [HostCall.movement_move_to_face 0]
                 ++ [HostCall.watch_clear_colon,
                     HostCall.watch_clear_indicator WATCH_INDICATOR_PM,
                     HostCall.watch_display_text WATCH_POSITION_FULL shown] } := by
  obtain ⟨shown, h⟩ := settings_mode_redraw_some host ⟨EVENT_TIMEOUT, subsecond⟩ state
    (persist_world_clock_settings state w).1
    ((persist_world_clock_settings state w).2 ++ [HostCall.movement_move_to_face 0]) hnames
  exact ⟨shown, h⟩

/-- C12, amended: in every settings page and on both displays, `EVENT_TIMEOUT`
is handled with one call of `persist_world_clock_settings` (one file read) and
a request to move to face 0, and it leaves `current_screen` as it was, still a
settings page; it is the next `world_clock_face_activate` that sets
`current_screen` to 0.  The event is reported as handled, the host is left as
the persist call left it, and the calls are exactly those of the persist call,
the request to move to face 0 and the redraw of the settings screen (colon
cleared, PM indicator cleared, the settings text written to the full display:
the plain text on an even sub-second and the blinked text on an odd one when
no label character is NUL). -/
theorem C12_timeout_keeps_screen (host : Host) (subsecond : Nat)
    (state : world_clock_state_t) (w : World) (hnames : host.zone_names_six)
    (hpage : state.current_screen ≠ 0) :
    ∃ out, world_clock_face_loop host ⟨EVENT_TIMEOUT, subsecond⟩ state w = some out
      ∧ out.state = state
      ∧ out.state.current_screen ≠ 0
      ∧ read_count out.calls = 1
      ∧ HostCall.movement_move_to_face 0 ∈ out.calls
      ∧ (world_clock_face_activate host out.state out.world).1.current_screen = 0
      ∧ out.handled = true
      ∧ out.world = (persist_world_clock_settings state w).1
      ∧ settings_mode_redraw host ⟨EVENT_TIMEOUT, subsecond⟩ state
            (persist_world_clock_settings state w).1
            ((persist_world_clock_settings state w).2 ++ [HostCall.movement_move_to_face 0])
          = some out
      ∧ ∃ shown,
          out.calls = (persist_world_clock_settings state w).2
            ++ [HostCall.movement_move_to_face 0]
            ++ [HostCall.watch_clear_colon,
                HostCall.watch_clear_indicator WATCH_INDICATOR_PM,
                HostCall.watch_display_text WATCH_POSITION_FULL shown]
          ∧ (state.settings.char_0 ≠ 0 → state.settings.char_1 ≠ 0 →
              state.settings.char_2 ≠ 0 →
              shown = if subsecond % 2 = 0 then
                  settings_text state.settings
                    ((host.watch_utility_time_zone_name_at_index
                      state.settings.timezone_index).takeWhile (· ≠ 0))
                else
                  settings_text_blinked host.lcd_type state.current_screen state.settings
                    ((host.watch_utility_time_zone_name_at_index
                      state.settings.timezone_index).takeWhile (· ≠ 0))) := by
  obtain ⟨shown, h⟩ := settings_mode_timeout_some host subsecond state w hnames
  have hredraw : settings_mode_redraw host ⟨EVENT_TIMEOUT, subsecond⟩ state
      (persist_world_clock_settings state w).1
      ((persist_world_clock_settings state w).2 ++ [HostCall.movement_move_to_face 0])
      = _world_clock_face_do_settings_mode host ⟨EVENT_TIMEOUT, subsecond⟩ state w := rfl
  refine ⟨{ handled := true, state := state,
            world := (persist_world_clock_settings state w).1,
            calls := (persist_world_clock_settings state w).2
              ++ [HostCall.movement_move_to_face 0]
              ++ [HostCall.watch_clear_colon,
                  HostCall.watch_clear_indicator WATCH_INDICATOR_PM,
                  HostCall.watch_display_text WATCH_POSITION_FULL shown] },
    ?_, rfl, hpage, ?_, ?_, ?_, rfl, rfl, ?_, shown, rfl, ?_⟩
  · rw [loop_settings_mode host _ state w hpage]; exact h
  · simp only [read_count]
    rcases persist_calls_cases state w with hp | hp <;> rw [hp] <;> simp [HostCall.is_file_read]
  · simp
  · simp only [world_clock_face_activate, _update_timezone_offset]
    split_ifs <;> rfl
  · rw [hredraw]; exact h
  · intro h0 h1 h2
    have ht := settings_mode_redraw_text host ⟨EVENT_TIMEOUT, subsecond⟩ state
      (persist_world_clock_settings state w).1
      ((persist_world_clock_settings state w).2 ++ [HostCall.movement_move_to_face 0])
      (hnames state.settings.timezone_index) h0 h1 h2
    rw [hredraw, h] at ht
    simp only [Option.some.injEq, Outcome.mk.injEq, true_and] at ht
    have hc := List.append_cancel_left ht
    simp only [List.cons.injEq, HostCall.watch_display_text.injEq, true_and, and_true] at hc
    exact hc

/-- Witness of C12 in settings page 2 of the example host. -/
theorem C12_timeout_keeps_screen_witness :
    example_host.zone_names_six ∧ (example_state 2).current_screen ≠ 0
      ∧ ∃ out, world_clock_face_loop example_host ⟨EVENT_TIMEOUT, 0⟩ (example_state 2)
            example_world = some out
          ∧ out.state = example_state 2
          ∧ out.handled = true
          ∧ HostCall.movement_move_to_face 0 ∈ out.calls :=
  ⟨fun _ => rfl, by decide,
    let ⟨out, h1, h2, _, _, h5, _, h7, _⟩ :=
      C12_timeout_keeps_screen example_host 0 (example_state 2) example_world
        (fun _ => rfl) (by decide)
    ⟨out, h1, h2, h7, h5⟩⟩

/-- Counterexample to C12 as stated: in settings page 2 of the example host the
state `EVENT_TIMEOUT` leaves does not have `current_screen == 0`. -/
theorem C12_timeout_not_display :
    ¬ ∃ out, world_clock_face_loop example_host ⟨EVENT_TIMEOUT, 0⟩ (example_state 2)
          example_world = some out
        ∧ out.state.current_screen = 0 := by
  rintro ⟨out, hout, h0⟩
  obtain ⟨shown, h⟩ := settings_mode_timeout_some example_host 0 (example_state 2)
    example_world (fun _ => rfl)
  rw [loop_settings_mode example_host _ (example_state 2) example_world (by decide), h] at hout
  cases hout
  have h2 : (example_state 2).current_screen ≠ 0 := by decide
  exact h2 h0

theorem reg_of_reg (v : Nat) (hv : v < 4294967296) :
    (world_clock_settings_t.of_reg v).reg = v := by
  simp only [world_clock_settings_t.of_reg, world_clock_settings_t.reg]
  omega

theorem of_reg_reg (s : world_clock_settings_t) (h : s.wf) :
    world_clock_settings_t.of_reg s.reg = s := by
  obtain ⟨c0, c1, c2, tz⟩ := s
  obtain ⟨h0, h1, h2, h3⟩ := h
  simp only [world_clock_settings_t.of_reg, world_clock_settings_t.reg] at *
  congr 1 <;> omega

/-- First-time setup when the instance's file holds a blob. -/
theorem setup_blob (host : Host) (w : World) (watch_face_index v : Nat)
    (hf : w.files (settings_filename (w.world_clock_instances % 256)) = FileSlot.blob v) :
    world_clock_face_setup host w watch_face_index none
      = (some { settings := world_clock_settings_t.of_reg v, current_screen := 0,
                clock_index := w.world_clock_instances % 256, previous_date_time := 0,
                current_offset := 0 },
          { w with world_clock_instances := w.world_clock_instances + 1 },
          [HostCall.filesystem_file_exists (settings_filename (w.world_clock_instances % 256)),
           HostCall.filesystem_read_file (settings_filename (w.world_clock_instances % 256)) 4]) := by
  simp [world_clock_face_setup, filesystem_file_exists, filesystem_read_file, hf]

/-- First-time setup when the instance has no file. -/
theorem setup_absent (host : Host) (w : World) (watch_face_index : Nat)
    (hf : w.files (settings_filename (w.world_clock_instances % 256)) = FileSlot.absent) :
    world_clock_face_setup host w watch_face_index none
      = (some { settings := { char_0 := 0x20, char_1 := 0x20, char_2 := 0x20,
                              timezone_index := host.UTZ_UTC % 256 },
                current_screen := 0,
                clock_index := w.world_clock_instances % 256, previous_date_time := 0,
                current_offset := 0 },
          { w with world_clock_instances := w.world_clock_instances + 1 },
          [HostCall.filesystem_file_exists
            (settings_filename (w.world_clock_instances % 256))]) := by
  simp [world_clock_face_setup, filesystem_file_exists, hf]

/-- After a persist on a store that accepts writes, a record other than the
all-ones pattern is the blob of the instance's file. -/
theorem persist_leaves_blob (state : world_clock_state_t) (w : World)
    (hw : w.write_fails = false) (hne : state.settings.reg ≠ 0xFFFFFFFF) :
    (persist_world_clock_settings state w).1.files (settings_filename state.clock_index)
      = FileSlot.blob state.settings.reg := by
  rcases hf : w.files (settings_filename state.clock_index) with _ | _ | v
  · simp [persist_world_clock_settings, filesystem_read_file, hf, hne, filesystem_write_file, hw]
  · simp [persist_world_clock_settings, filesystem_read_file, hf, hne, filesystem_write_file, hw]
  · by_cases hv : state.settings.reg = v
    · simp [persist_world_clock_settings, filesystem_read_file, hf, hv]
    · simp [persist_world_clock_settings, filesystem_read_file, hf, hv, filesystem_write_file,
        hw]

/-- C14, setup load-or-default: a first-time setup (null context) assigns the
instance counter as `clock_index`, increments the counter and leaves
`current_screen == 0`; when the instance has no file the settings are three
spaces and `UTZ_UTC`; when the file holds a 32-bit blob the settings record is
that blob bit for bit.  A setup call with an allocated context changes neither
the state nor the host, the instance counter included. -/
theorem C14_setup_load_or_default (host : Host) (w : World) (watch_face_index : Nat)
    (hutc : host.UTZ_UTC < 256) :
    (w.files (settings_filename (w.world_clock_instances % 256)) = FileSlot.absent →
        ∃ state w2 calls,
          world_clock_face_setup host w watch_face_index none = (some state, w2, calls)
          ∧ state.settings = { char_0 := 0x20, char_1 := 0x20, char_2 := 0x20,
                               timezone_index := host.UTZ_UTC }
          ∧ state.current_screen = 0
          ∧ state.clock_index = w.world_clock_instances % 256
          ∧ w2.world_clock_instances = w.world_clock_instances + 1)
      ∧ (∀ v, v < 4294967296 →
          w.files (settings_filename (w.world_clock_instances % 256)) = FileSlot.blob v →
          ∃ state w2 calls,
            world_clock_face_setup host w watch_face_index none = (some state, w2, calls)
            ∧ state.settings.reg = v
            ∧ state.current_screen = 0
            ∧ state.clock_index = w.world_clock_instances % 256
            ∧ w2.world_clock_instances = w.world_clock_instances + 1)
      ∧ (∀ state, world_clock_face_setup host w watch_face_index (some state)
          = (some state, w, [])) := by
  refine ⟨?_, ?_, ?_⟩
  · intro hf
    refine ⟨_, _, _, setup_absent host w watch_face_index hf, ?_, rfl, rfl, rfl⟩
    simp [Nat.mod_eq_of_lt hutc]
  · intro v hv hf
    exact ⟨_, _, _, setup_blob host w watch_face_index v hf, reg_of_reg v hv, rfl, rfl, rfl⟩
  · intro state
    rfl

/-- Witness of C14: instance 1 of the example host has no file. -/
theorem C14_setup_load_or_default_witness :
    example_host.UTZ_UTC < 256
      ∧ ∃ state w2 calls,
          world_clock_face_setup example_host example_world 0 none = (some state, w2, calls)
          ∧ state.settings = { char_0 := 0x20, char_1 := 0x20, char_2 := 0x20,
                               timezone_index := example_host.UTZ_UTC }
          ∧ state.current_screen = 0 :=
  ⟨by decide,
    let ⟨state, w2, calls, h1, h2, h3, _⟩ :=
      (C14_setup_load_or_default example_host example_world 0 (by decide)).1 rfl
    ⟨state, w2, calls, h1, h2, h3⟩⟩

/-- C20, persist/load round trip: on a store that accepts writes, after
`persist_world_clock_settings` of a record with byte-sized fields whose 32-bit
pattern is not all ones, whatever the store held before, the first-time setup
of the instance with the same `clock_index` loads exactly that record; a zone
index below `NUM_ZONE_NAMES` excludes the all-ones pattern when the table has
at most 255 names; the all-ones record with no file present is not written and
setup then gives the blank label and `UTZ_UTC`. -/
theorem C20_persist_load_round_trip (host : Host) (state : world_clock_state_t) (w : World)
    (watch_face_index instances : Nat)
    (hwf : state.settings.wf) (hw : w.write_fails = false)
    (hinst : instances % 256 = state.clock_index) :
    (state.settings.reg ≠ 0xFFFFFFFF →
        ∃ loaded w2 calls,
          world_clock_face_setup host
              { (persist_world_clock_settings state w).1 with world_clock_instances := instances }
              watch_face_index none = (some loaded, w2, calls)
          ∧ loaded.settings = state.settings
          ∧ loaded.clock_index = state.clock_index)
      ∧ (host.NUM_ZONE_NAMES ≤ 255 → state.settings.timezone_index < host.NUM_ZONE_NAMES →
          state.settings.reg ≠ 0xFFFFFFFF)
      ∧ (state.settings.reg = 0xFFFFFFFF →
          w.files (settings_filename state.clock_index) = FileSlot.absent →
          write_count (persist_world_clock_settings state w).2 = 0
            ∧ ∃ loaded w2 calls,
                world_clock_face_setup host
                    { (persist_world_clock_settings state w).1 with
                      world_clock_instances := instances }
                    watch_face_index none = (some loaded, w2, calls)
                ∧ loaded.settings = { char_0 := 0x20, char_1 := 0x20, char_2 := 0x20,
                                      timezone_index := host.UTZ_UTC % 256 }) := by
  refine ⟨?_, ?_, ?_⟩
  · intro hne
    have hb := persist_leaves_blob state w hw hne
    have hs := setup_blob host
      { (persist_world_clock_settings state w).1 with world_clock_instances := instances }
      watch_face_index state.settings.reg (by simpa [hinst] using hb)
    refine ⟨_, _, _, hs, of_reg_reg _ hwf, ?_⟩
    exact hinst
  · intro hN hlt
    obtain ⟨h0, h1, h2, h3⟩ := hwf
    simp only [world_clock_settings_t.reg]
    omega
  · intro heq hf
    have hp : persist_world_clock_settings state w
        = (w, [HostCall.filesystem_read_file (settings_filename state.clock_index) 4]) := by
      simp [persist_world_clock_settings, filesystem_read_file, hf, heq]
    rw [hp]
    refine ⟨by simp [write_count, HostCall.is_file_write], ?_⟩
    exact ⟨_, _, _, setup_absent host { w with world_clock_instances := instances }
      watch_face_index (by simpa [hinst] using hf), rfl⟩

/-- Witness of C20: the blank record of instance 0 on the empty store. -/
theorem C20_persist_load_round_trip_witness :
    (example_state 1).settings.wf ∧ example_world.write_fails = false
      ∧ 256 % 256 = (example_state 1).clock_index
      ∧ (example_state 1).settings.reg ≠ 0xFFFFFFFF
      ∧ ∃ loaded w2 calls,
          world_clock_face_setup example_host
              { (persist_world_clock_settings (example_state 1) example_world).1 with
                world_clock_instances := 256 }
              0 none = (some loaded, w2, calls)
          ∧ loaded.settings = (example_state 1).settings
          ∧ loaded.clock_index = (example_state 1).clock_index :=
  ⟨by decide, rfl, by decide, by decide,
    (C20_persist_load_round_trip example_host (example_state 1) example_world 0 256
      (by decide) rfl (by decide)).1 (by decide)⟩

/-! Failsafe convergence of the character cycler -/

theorem reaches_space_within_sound (lcd : watch_lcd_type_t) (position n c : Nat)
    (h : reaches_space_within lcd position n c = true) :
    ∃ k, k ≤ n ∧ (fun c => advance_character_at_position lcd c position)^[k] c = 0x20 := by
  induction n generalizing c with
  | zero =>
    simp only [reaches_space_within, beq_iff_eq] at h
    exact ⟨0, le_refl 0, h⟩
  | succ n ih =>
    simp only [reaches_space_within, Bool.or_eq_true, beq_iff_eq] at h
    rcases h with h | h
    · exact ⟨0, Nat.zero_le _, h⟩
    · obtain ⟨k, hk, hit⟩ := ih _ h
      exact ⟨k + 1, Nat.succ_le_succ hk, by rw [Function.iterate_succ_apply]; exact hit⟩

set_option maxRecDepth 1000000 in
theorem rich_reaches_space :
    ∀ c, c < 256 → reaches_space_within WATCH_LCD_TYPE_CUSTOM 0 256 c = true := by
  decide!

set_option maxRecDepth 1000000 in
theorem restricted_reaches_space :
    ∀ c, c < 256 → reaches_space_within WATCH_LCD_TYPE_CLASSIC 1 256 c = true := by
  decide!

/-- From every byte, space is met within 256 applications, in both tables. -/
theorem advance_reaches_space (lcd : watch_lcd_type_t) (position c : Nat) (hc : c < 256) :
    ∃ k, k ≤ 256 ∧ (fun c => advance_character_at_position lcd c position)^[k] c = 0x20 := by
  by_cases h : rich_table_selected lcd position
  · obtain ⟨k, hk, hit⟩ := reaches_space_within_sound _ _ _ _ (rich_reaches_space c hc)
    exact ⟨k, hk, by rw [advance_iterate_rich_eq lcd position h]; exact hit⟩
  · obtain ⟨k, hk, hit⟩ := reaches_space_within_sound _ _ _ _ (restricted_reaches_space c hc)
    exact ⟨k, hk, by rw [advance_iterate_restricted_eq lcd position h]; exact hit⟩

/-- C16, failsafe convergence: for every byte `c`, every position and both
display types, the byte 0x7F goes to space in one step, space is met from `c`
after at most 256 applications of `advance_character_at_position`, and every
cycle of the table (`c` coming back to itself after `m > 0` applications)
passes through space. -/
theorem C16_failsafe_convergence (lcd : watch_lcd_type_t) (position c : Nat) (hc : c < 256) :
    advance_character_at_position lcd 0x7F position = 0x20
      ∧ (∃ k, k ≤ 256 ∧ (fun c => advance_character_at_position lcd c position)^[k] c = 0x20)
      ∧ (∀ m, 0 < m → (fun c => advance_character_at_position lcd c position)^[m] c = c →
          ∃ j, j < m ∧ (fun c => advance_character_at_position lcd c position)^[j] c = 0x20) := by
  refine ⟨?_, advance_reaches_space lcd position c hc, ?_⟩
  · by_cases h : rich_table_selected lcd position
    · rw [advance_rich_eq lcd position _ h]; decide
    · rw [advance_restricted_eq lcd position _ h]; decide
  · intro m hm hper
    obtain ⟨k, -, hit⟩ := advance_reaches_space lcd position c hc
    have hp : Function.IsPeriodicPt (fun c => advance_character_at_position lcd c position) m c :=
      hper
    exact ⟨k % m, Nat.mod_lt k hm, by rw [hp.iterate_mod_apply k]; exact hit⟩

/-- Witness of C16 at the byte 0x80, outside both alphabets. -/
theorem C16_failsafe_convergence_witness :
    128 < 256
      ∧ advance_character_at_position WATCH_LCD_TYPE_CLASSIC 0x7F 1 = 0x20
      ∧ ∃ k, k ≤ 256
          ∧ (fun c => advance_character_at_position WATCH_LCD_TYPE_CLASSIC c 1)^[k] 128 = 0x20 :=
  ⟨by decide, (C16_failsafe_convergence WATCH_LCD_TYPE_CLASSIC 1 128 (by decide)).1,
    (C16_failsafe_convergence WATCH_LCD_TYPE_CLASSIC 1 128 (by decide)).2.1⟩

/-! Screen-range invariant -/

/-- The redraw, when it returns, leaves the face state as it was. -/
theorem settings_mode_redraw_state (host : Host) (event : movement_event_t)
    (state : world_clock_state_t) (w : World) (calls : List HostCall) (out : Outcome)
    (h : settings_mode_redraw host event state w calls = some out) : out.state = state := by
  simp only [settings_mode_redraw] at h
  split_ifs at h <;> (split at h <;> simp at h; rw [← h])

theorem display_mode_render_screen (host : Host) (event : movement_event_t)
    (state : world_clock_state_t) (w : World) (calls : List HostCall) :
    (display_mode_render host event state w calls).state.current_screen
      = state.current_screen := by
  simp only [display_mode_render]
  split_ifs <;> simp [_update_timezone_offset]

/-- The screen after an event in display mode: page 1 on an alarm long-press,
unchanged on every other event. -/
theorem display_mode_screen (host : Host) (event : movement_event_t)
    (state : world_clock_state_t) (w : World) :
    (world_clock_face_do_display_mode host event state w).state.current_screen
      = if event.event_type = EVENT_ALARM_LONG_PRESS then 1 else state.current_screen := by
  obtain ⟨kind, subsecond⟩ := event
  cases kind <;>
    simp [world_clock_face_do_display_mode, display_mode_render_screen]

theorem alarm_button_screen (host : Host) (state : world_clock_state_t) :
    (settings_mode_alarm_button host state).current_screen = state.current_screen := by
  simp only [settings_mode_alarm_button]
  split_ifs <;> rfl

/-- The screen after an event in settings mode: unchanged, one page further
(never past the last page when the display type has one), or 0. -/
theorem settings_mode_screen (host : Host) (event : movement_event_t)
    (state : world_clock_state_t) (w : World) (out : Outcome)
    (hb : state.current_screen ≤ last_settings_page host.lcd_type)
    (h : _world_clock_face_do_settings_mode host event state w = some out) :
    out.state.current_screen = state.current_screen
      ∨ (out.state.current_screen = state.current_screen + 1
          ∧ out.state.current_screen ≤ last_settings_page host.lcd_type)
      ∨ out.state.current_screen = 0 := by
  obtain ⟨kind, subsecond⟩ := event
  cases kind
  case EVENT_LIGHT_BUTTON_DOWN =>
    simp only [_world_clock_face_do_settings_mode] at h
    split_ifs at h with hc
    · right; right
      simp only [Option.some.injEq] at h
      rw [← h]
      show (world_clock_face_do_display_mode host _ _ _).state.current_screen = 0
      rw [display_mode_screen]; simp
    · have hs := settings_mode_redraw_state _ _ _ _ _ _ h
      rw [hs]
      right; left
      show (state.current_screen + 1) % 256 = state.current_screen + 1
        ∧ (state.current_screen + 1) % 256 ≤ last_settings_page host.lcd_type
      cases hl : host.lcd_type <;> simp [hl] at hc <;> simp [hl, last_settings_page] at hb ⊢
        <;> omega
  case EVENT_MODE_BUTTON_UP =>
    simp only [_world_clock_face_do_settings_mode, Option.some.injEq] at h
    left; rw [← h]
  case EVENT_ALARM_BUTTON_DOWN =>
    have hs := settings_mode_redraw_state _ _ _ _ _ _ h
    left; rw [hs, alarm_button_screen]
  all_goals
    have hs := settings_mode_redraw_state _ _ _ _ _ _ h
    left; rw [hs]

/-- One event keeps the screen within the pages of the display. -/
theorem loop_keeps_screen_range (host : Host) (event : movement_event_t)
    (state : world_clock_state_t) (w : World) (out : Outcome)
    (hb : state.current_screen ≤ last_settings_page host.lcd_type)
    (h : world_clock_face_loop host event state w = some out) :
    out.state.current_screen ≤ last_settings_page host.lcd_type := by
  simp only [world_clock_face_loop] at h
  split_ifs at h with h0
  · simp only [Option.some.injEq] at h
    rw [← h, display_mode_screen]
    split_ifs
    · cases host.lcd_type <;> simp [last_settings_page]
    · exact hb
  · rcases settings_mode_screen host event state w out hb h with hs | hs | hs
    · rw [hs]; exact hb
    · exact hs.2
    · rw [hs]; exact Nat.zero_le _

theorem reachable_screen_range (lcd : watch_lcd_type_t) (state : world_clock_state_t)
    (h : Reachable lcd state) : state.current_screen ≤ last_settings_page lcd := by
  induction h with
  | setup host w i state w2 calls hl hs =>
    simp only [world_clock_face_setup] at hs
    split_ifs at hs <;> simp at hs <;> rw [← hs.1] <;> exact Nat.zero_le _
  | activate host state w hl _ _ =>
    have : (world_clock_face_activate host state w).1.current_screen = 0 := by
      simp only [world_clock_face_activate, _update_timezone_offset]
      split_ifs <;> rfl
    rw [this]; exact Nat.zero_le _
  | loop host event state w out hl _ hstep ih =>
    rw [← hl] at ih ⊢
    exact loop_keeps_screen_range host event state w out ih hstep

/-- C15, screen-range invariant: with the display type fixed, every state met
from a first-time setup through calls of `world_clock_face_activate` and events
handled by `world_clock_face_loop` has `current_screen` at most 3 on the
classic LCD and at most 4 on the custom LCD; an event in display mode leaves
the screen at 0 unless it is an alarm long-press, which goes to page 1; an
event in settings mode leaves the page as it is, advances it by one, or resets
it to 0. -/
theorem C15_screen_range_invariant (lcd : watch_lcd_type_t) (state : world_clock_state_t)
    (h : Reachable lcd state) :
    state.current_screen ≤ last_settings_page lcd
      ∧ (∀ (host : Host) (event : movement_event_t) (w : World) (out : Outcome),
          state.current_screen = 0 →
          world_clock_face_loop host event state w = some out →
          (out.state.current_screen = 0
            ∨ (event.event_type = EVENT_ALARM_LONG_PRESS ∧ out.state.current_screen = 1)))
      ∧ (∀ (host : Host) (event : movement_event_t) (w : World) (out : Outcome),
          host.lcd_type = lcd →
          state.current_screen ≠ 0 →
          world_clock_face_loop host event state w = some out →
          (out.state.current_screen = state.current_screen
            ∨ out.state.current_screen = state.current_screen + 1
            ∨ out.state.current_screen = 0)) := by
  refine ⟨reachable_screen_range lcd state h, ?_, ?_⟩
  · intro host event w out h0 hstep
    simp only [world_clock_face_loop, h0, if_true, Option.some.injEq] at hstep
    rw [← hstep, display_mode_screen]
    split_ifs with he
    · exact Or.inr ⟨he, rfl⟩
    · exact Or.inl h0
  · intro host event w out hl h0 hstep
    rw [loop_settings_mode host event state w h0] at hstep
    have hb : state.current_screen ≤ last_settings_page host.lcd_type := by
      rw [hl]; exact reachable_screen_range lcd state h
    rcases settings_mode_screen host event state w out hb hstep with hs | hs | hs
    · exact Or.inl hs
    · exact Or.inr (Or.inl hs.1)
    · exact Or.inr (Or.inr hs)

/-- Witness of C15: the state after setup and an alarm long-press on the
classic LCD. -/
theorem C15_screen_range_invariant_witness :
    Reachable WATCH_LCD_TYPE_CLASSIC
        (world_clock_face_do_display_mode example_host ⟨EVENT_ALARM_LONG_PRESS, 0⟩
          { settings := { char_0 := 0x20, char_1 := 0x20, char_2 := 0x20, timezone_index := 0 },
            current_screen := 0, clock_index := 1, previous_date_time := 0,
            current_offset := 0 } example_world).state
      ∧ (world_clock_face_do_display_mode example_host ⟨EVENT_ALARM_LONG_PRESS, 0⟩
          { settings := { char_0 := 0x20, char_1 := 0x20, char_2 := 0x20, timezone_index := 0 },
            current_screen := 0, clock_index := 1, previous_date_time := 0,
            current_offset := 0 } example_world).state.current_screen
          ≤ last_settings_page WATCH_LCD_TYPE_CLASSIC :=
  ⟨Reachable.loop example_host ⟨EVENT_ALARM_LONG_PRESS, 0⟩ _ example_world _ rfl
      (Reachable.setup example_host example_world 0 _ _ _ rfl rfl) rfl,
    (C15_screen_range_invariant WATCH_LCD_TYPE_CLASSIC _
      (Reachable.loop example_host ⟨EVENT_ALARM_LONG_PRESS, 0⟩ _ example_world _ rfl
        (Reachable.setup example_host example_world 0 _ _ _ rfl rfl) rfl)).1⟩

/-! Offset refresh and low-energy update -/

/-- A tick in the minutes tier refreshes the cached offset exactly when the
new minute is a multiple of 15. -/
theorem tick_minutes_tier_offset (host : Host) (state : world_clock_state_t) (w : World)
    (subsecond : Nat)
    (h6 : host.movement_get_date_time_in_zone state.settings.timezone_index / 64
      ≠ state.previous_date_time / 64)
    (h12 : host.movement_get_date_time_in_zone state.settings.timezone_index / 4096
      = state.previous_date_time / 4096) :
    (world_clock_face_do_display_mode host ⟨EVENT_TICK, subsecond⟩ state w).state.current_offset
      = if date_time_minute (host.movement_get_date_time_in_zone state.settings.timezone_index)
            % 15 = 0 then
          host.movement_get_current_timezone_offset_for_zone state.settings.timezone_index
        else state.current_offset := by
  simp only [world_clock_face_do_display_mode, display_mode_render]
  rw [if_neg (fun h => h6 h.1), if_pos ⟨h12, by simp⟩]
  split_ifs <;> rfl

/-- A tick in the full-redraw tier leaves the cached offset as it was. -/
theorem tick_full_redraw_offset (host : Host) (state : world_clock_state_t) (w : World)
    (subsecond : Nat)
    (h12 : host.movement_get_date_time_in_zone state.settings.timezone_index / 4096
      ≠ state.previous_date_time / 4096) :
    (world_clock_face_do_display_mode host ⟨EVENT_TICK, subsecond⟩ state w).state.current_offset
      = state.current_offset := by
  have h6 : host.movement_get_date_time_in_zone state.settings.timezone_index / 64
      ≠ state.previous_date_time / 64 := by omega
  simp only [world_clock_face_do_display_mode, display_mode_render]
  rw [if_neg (fun h => h6 h.1), if_neg (fun h => h12 h.1)]
  split_ifs <;> rfl

/-- C17, the code at the failing input: the clock goes from 10:59:59 to
11:00:00 of the same day, so the minute has just changed to 0 and the previous
date-time is in the preceding minute; the zone resolver gives 356400 for the selected zone
99; the tick leaves the stale `current_offset` 0 in place. -/
theorem C17_no_refresh_on_the_hour :
    date_time_minute on_the_hour = 0 ∧ date_time_second on_the_hour = 0
      ∧ date_time_minute before_the_hour = 59 ∧ date_time_second before_the_hour = 59
      ∧ date_time_hour on_the_hour = date_time_hour before_the_hour + 1
      ∧ on_the_hour / 131072 = before_the_hour / 131072
      ∧ (example_host_at on_the_hour).movement_get_current_timezone_offset_for_zone 99 = 356400
      ∧ (world_clock_face_do_display_mode (example_host_at on_the_hour) ⟨EVENT_TICK, 0⟩
            { example_state 0 with previous_date_time := before_the_hour }
            example_world).state.current_offset = 0 := by
  refine ⟨by decide, by decide, by decide, by decide, by decide, by decide, by decide, ?_⟩
  rw [tick_full_redraw_offset (example_host_at on_the_hour)
    { example_state 0 with previous_date_time := before_the_hour } example_world 0 (by decide)]
  rfl

/-- The calls of a low-energy update in display mode. -/
theorem low_energy_update_calls (host : Host) (state : world_clock_state_t) (w : World)
    (subsecond : Nat) :
    (world_clock_face_do_display_mode host ⟨EVENT_LOW_ENERGY_UPDATE, subsecond⟩ state w).calls
      = label_day_hour_minute_writes host.lcd_type state.settings
          (host.movement_get_date_time_in_zone state.settings.timezone_index)
        ++ (if w.sleep_animation_is_running = true then [] else enter_sleep_calls) := by
  obtain ⟨hs, hm, hh, hd⟩ :=
    date_time_fields_lt (host.movement_get_date_time_in_zone state.settings.timezone_index)
  simp only [world_clock_face_do_display_mode, display_mode_render, enter_sleep_calls,
    label_day_hour_minute_writes,
    sprintf_d_zero_two _ hs, sprintf_d_zero_two _ hm, sprintf_d_blank_two _ hh,
    sprintf_d_blank_two _ hd]
  split_ifs <;> simp_all [two_digits, two_digits_blank]

/-- C18, amended: on `EVENT_LOW_ENERGY_UPDATE` in display mode, for every
state and every previous and new date-time, the calls are the label
characters, day, hour and minute of the full redraw, followed, exactly when
the sleep animation was not already running, by the seconds position written
as two blanks and the start of the sleep animation and of the colon blink at
500 ms; when the animation was already running nothing addresses the seconds
position.  The seconds are never written by a call of their own, the
animation is running afterwards and `previous_date_time` is the new
date-time. -/
theorem C18_low_energy_update (host : Host) (state : world_clock_state_t) (w : World)
    (subsecond : Nat) :
    (world_clock_face_do_display_mode host ⟨EVENT_LOW_ENERGY_UPDATE, subsecond⟩ state w).calls
        = label_day_hour_minute_writes host.lcd_type state.settings
            (host.movement_get_date_time_in_zone state.settings.timezone_index)
          ++ (if w.sleep_animation_is_running = true then [] else enter_sleep_calls)
      ∧ (∀ call ∈ (world_clock_face_do_display_mode host ⟨EVENT_LOW_ENERGY_UPDATE, subsecond⟩
              state w).calls,
          call.targets_seconds = true →
            w.sleep_animation_is_running = false
              ∧ call = HostCall.watch_display_text WATCH_POSITION_SECONDS [0x20, 0x20])
      ∧ (world_clock_face_do_display_mode host ⟨EVENT_LOW_ENERGY_UPDATE, subsecond⟩ state
            w).world.sleep_animation_is_running = true
      ∧ (world_clock_face_do_display_mode host ⟨EVENT_LOW_ENERGY_UPDATE, subsecond⟩ state
            w).state.previous_date_time
          = host.movement_get_date_time_in_zone state.settings.timezone_index := by
  refine ⟨low_energy_update_calls host state w subsecond, ?_, ?_, ?_⟩
  · rw [low_energy_update_calls]
    simp only [label_day_hour_minute_writes, enter_sleep_calls]
    cases hr : w.sleep_animation_is_running <;> cases hl : host.lcd_type <;>
      simp [HostCall.targets_seconds]
  · simp only [world_clock_face_do_display_mode, display_mode_render]
    split_ifs <;> simp_all
  · simp only [world_clock_face_do_display_mode, display_mode_render]
    split_ifs <;> simp_all

/-- Counterexample to C18 as stated: with the sleep animation already
running, a low-energy update does not write the seconds position as two
blanks; no call addresses the seconds position at all. -/
theorem C18_no_blanks_when_sleeping :
    example_world_sleeping.sleep_animation_is_running = true
      ∧ ∀ call ∈ (world_clock_face_do_display_mode example_host ⟨EVENT_LOW_ENERGY_UPDATE, 0⟩
            (example_state 0) example_world_sleeping).calls,
          call.targets_seconds = false := by
  refine ⟨rfl, ?_⟩
  rw [low_energy_update_calls]
  decide

/-! Settings redraw -/

/-- C19, amended: when the redraw of the settings handler is reached in a
state whose zone name has exactly six characters and whose three label
characters are not NUL, it returns and the text written to the full display is
`char_0`, `char_1`, two spaces, the zone name, `char_2` (11 characters) when the
event's sub-second is even; when it is odd the text is the same with exactly
the edited field replaced: index 0 by `_` on page 1, index 1 by `_` on page 2,
index 10 by `_` on page 3 of the custom LCD, and indices 4..9 by spaces on page
4 or on page 3 of the classic LCD. -/
theorem C19_settings_redraw_and_blink (host : Host) (event : movement_event_t)
    (state : world_clock_state_t) (w : World) (calls : List HostCall)
    (hname : ((host.watch_utility_time_zone_name_at_index
      state.settings.timezone_index).takeWhile (· ≠ 0)).length = 6)
    (h0 : state.settings.char_0 ≠ 0) (h1 : state.settings.char_1 ≠ 0)
    (h2 : state.settings.char_2 ≠ 0) :
    settings_mode_redraw host event state w calls
        = some { handled := true, state := state, world := w,
                 calls := calls ++
                   [HostCall.watch_clear_colon,
                    HostCall.watch_clear_indicator WATCH_INDICATOR_PM,
                    HostCall.watch_display_text WATCH_POSITION_FULL
                      (if event.subsecond % 2 = 0 then
                        settings_text state.settings
                          ((host.watch_utility_time_zone_name_at_index
                            state.settings.timezone_index).takeWhile (· ≠ 0))
                      else
                        settings_text_blinked host.lcd_type state.current_screen state.settings
                          ((host.watch_utility_time_zone_name_at_index
                            state.settings.timezone_index).takeWhile (· ≠ 0)))] }
      ∧ (settings_text state.settings
          ((host.watch_utility_time_zone_name_at_index
            state.settings.timezone_index).takeWhile (· ≠ 0))).length = 11
      ∧ (settings_text_blinked host.lcd_type state.current_screen state.settings
          ((host.watch_utility_time_zone_name_at_index
            state.settings.timezone_index).takeWhile (· ≠ 0))).length = 11 := by
  refine ⟨settings_mode_redraw_text host event state w calls hname h0 h1 h2, ?_, ?_⟩
  · simp only [settings_text, List.length_append, List.length_cons, List.length_nil, hname]
  · simp only [settings_text_blinked]
    split_ifs <;>
      simp only [settings_text, List.length_set, List.length_append, List.length_cons,
        List.length_nil, hname]

/-- Witness of C19: the zone page of the example host on an odd sub-second
shows the label and six blanks. -/
theorem C19_settings_redraw_and_blink_witness :
    ((example_host.watch_utility_time_zone_name_at_index
        (example_state 3).settings.timezone_index).takeWhile (· ≠ 0)).length = 6
      ∧ (example_state 3).settings.char_0 ≠ 0 ∧ (example_state 3).settings.char_1 ≠ 0
      ∧ (example_state 3).settings.char_2 ≠ 0
      ∧ settings_mode_redraw example_host ⟨EVENT_TICK, 1⟩ (example_state 3) example_world []
        = some { handled := true, state := example_state 3, world := example_world,
                 calls := [] ++
                   [HostCall.watch_clear_colon,
                    HostCall.watch_clear_indicator WATCH_INDICATOR_PM,
                    HostCall.watch_display_text WATCH_POSITION_FULL
                      (if (⟨EVENT_TICK, 1⟩ : movement_event_t).subsecond % 2 = 0 then
                        settings_text (example_state 3).settings
                          ((example_host.watch_utility_time_zone_name_at_index
                            (example_state 3).settings.timezone_index).takeWhile (· ≠ 0))
                      else
                        settings_text_blinked example_host.lcd_type
                          (example_state 3).current_screen (example_state 3).settings
                          ((example_host.watch_utility_time_zone_name_at_index
                            (example_state 3).settings.timezone_index).takeWhile (· ≠ 0)))] } :=
  ⟨by decide, by decide, by decide, by decide,
    (C19_settings_redraw_and_blink example_host ⟨EVENT_TICK, 1⟩ (example_state 3) example_world
      [] (by decide) (by decide) (by decide) (by decide)).1⟩

/-- Counterexample to C19 as stated: with a six-character zone name, a state
whose `char_0` is the NUL byte gets the empty text on an even sub-second, not
the 11 characters of the claim; and on page 3 of the custom LCD an odd
sub-second puts `_` (0x5F) at index 10, not a blank. -/
theorem C19_nul_label_and_underscore :
    settings_mode_redraw example_host ⟨EVENT_TICK, 0⟩ (example_state_nul 2) example_world []
        = some { handled := true, state := example_state_nul 2, world := example_world,
                 calls := [HostCall.watch_clear_colon,
                           HostCall.watch_clear_indicator WATCH_INDICATOR_PM,
                           HostCall.watch_display_text WATCH_POSITION_FULL []] }
      ∧ (settings_text (example_state_nul 2).settings
          ((example_host.watch_utility_time_zone_name_at_index
            (example_state_nul 2).settings.timezone_index).takeWhile (· ≠ 0))).length = 11
      ∧ settings_mode_redraw example_host_custom ⟨EVENT_TICK, 1⟩ (example_state 3)
          example_world []
        = some { handled := true, state := example_state 3, world := example_world,
                 calls := [HostCall.watch_clear_colon,
                           HostCall.watch_clear_indicator WATCH_INDICATOR_PM,
                           HostCall.watch_display_text WATCH_POSITION_FULL
                             [0x20, 0x20, 0x20, 0x20, 0x55, 0x54, 0x43, 0x20, 0x20, 0x20,
                              0x5F]] } :=
  ⟨rfl, by decide, rfl⟩

end WorldClock
